import Mathlib

/-!
Formal model of the `ratelimit` crate (concurrency, fixed-window, token-bucket
and sliding-window limiters plus the chained and partitioned composers).

Conventions of the shallow embedding:
* `u32` / `u64` counters become `Nat`; the Rust code only subtracts behind
  guards that keep the values non-negative, so Lean's truncated subtraction
  agrees with the source on every reachable state.
* `Instant` / `Duration` become `ℚ` (an absolute monotone time line); each Rust
  call to `Instant::now()` becomes an explicit `now` parameter.
* the `f64` token reservoir of the token bucket becomes `ℚ`; on the integral
  values manipulated by the modelled paths `f64` arithmetic is exact, so the
  rational model is faithful.
* a `RateLimitLease`'s open-ended metadata map is modelled by its two
  standardized keys (`RetryAfter`, `FailedLimiterIndex`); its one-shot release
  closure is modelled by first-order data (`ReleaseAction`) describing exactly
  what the closure captured, and separate functions give the closure's effect.
* each limiter bundles its mutex-protected state with its two atomic counters;
  operations are functions from limiter to result and updated limiter,
  mirroring one linearized execution of the locked sections.
-/

deriving instance DecidableEq for Except

/-- Queue processing order (`core::QueueProcessingOrder`). -/
inductive QueueProcessingOrder where
  | oldestFirst
  | newestFirst
deriving DecidableEq, Repr

/-- Error taxonomy (`core::error::RateLimitError`). -/
inductive RateLimitError where
  | cancelled
  | permitCountExceeded (requested capacity : Nat)
  | disposed
  | invalidParameter (reason : String)
  | queueLimitExceeded
deriving DecidableEq, Repr

/-- The release hook captured by a lease.  `concReturn pc forSync` models the
closure built by `ConcurrencyLimiter::create_lease` (the only lease cleanup in
the crate besides the chained composer's, which is modelled separately). -/
inductive ReleaseAction where
  | noop
  | concReturn (permitCount : Nat) (forSync : Bool)
deriving DecidableEq, Repr

/-- `core::lease::RateLimitLease`, with the metadata map restricted to its two
standardized keys. -/
structure RateLimitLease where
  isAcquired : Bool
  retryAfter : Option ℚ := none
  failedLimiterIndex : Option Nat := none
  release : ReleaseAction := .noop
deriving DecidableEq, Repr

namespace RateLimitLease

/-- `RateLimitLease::success()`. -/
def success : RateLimitLease := { isAcquired := true }

/-- `RateLimitLease::success_with_cleanup(..)` for a concurrency lease. -/
def successWithConcCleanup (pc : Nat) (forSync : Bool) : RateLimitLease :=
  { isAcquired := true, release := .concReturn pc forSync }

/-- `RateLimitLease::failed(retry_after)`. -/
def failed (retryAfter : Option ℚ) : RateLimitLease :=
  { isAcquired := false, retryAfter := retryAfter }

end RateLimitLease

namespace Concurrency

/-- `ConcurrencyLimiterOptions`. -/
structure Options where
  permitLimit : Nat
  queueLimit : Nat
  order : QueueProcessingOrder
deriving DecidableEq, Repr

/-- A queued request; `closed` models `response.is_closed()` (the waiting
caller dropped its receiver, i.e. was cancelled). -/
structure QueuedRequest where
  permitCount : Nat
  closed : Bool := false
deriving DecidableEq, Repr

/-- The mutex-protected `State` of `ConcurrencyLimiter`. -/
structure State where
  availablePermits : Nat
  queue : List QueuedRequest
  queueCount : Nat
  idleSince : Option ℚ
  disposed : Bool
deriving DecidableEq, Repr

/-- `ConcurrencyLimiter`: state plus the two atomic lease counters. -/
structure Limiter where
  config : Options
  state : State
  successfulLeases : Nat
  failedLeases : Nat
deriving DecidableEq, Repr

/-- A fresh limiter (`ConcurrencyLimiter::new`, after validation). -/
def Limiter.new (cfg : Options) (now : ℚ) : Limiter :=
  { config := cfg
    state :=
      { availablePermits := cfg.permitLimit
        queue := []
        queueCount := 0
        idleSince := some now
        disposed := false }
    successfulLeases := 0
    failedLeases := 0 }

/-- `ConcurrencyLimiter::create_lease`: the lease data; the cleanup closure's
effect is given by `releaseSyncDirect` / `queueProcessorStep` below. -/
def createLease (pc : Nat) (forSync : Bool) : RateLimitLease :=
  if pc = 0 then RateLimitLease.success
  else RateLimitLease.successWithConcCleanup pc forSync

/-- One iteration step of `process_queue_internal`: inspect the head for the
configured order.  Returns `none` when the queue is empty. -/
def nextOf (order : QueueProcessingOrder) (q : List QueuedRequest) :
    Option QueuedRequest :=
  match order with
  | .oldestFirst => q.head?
  | .newestFirst => q.getLast?

/-- Pop from the configured end, mirroring the `pop_front` / `pop_back`
selection in `process_queue_internal`. -/
def popOf (order : QueueProcessingOrder) (q : List QueuedRequest) :
    List QueuedRequest :=
  match order with
  | .oldestFirst => q.tail
  | .newestFirst => q.dropLast

/-- `ConcurrencyLimiter::process_queue_internal`, as a fuel-indexed loop (the
fuel is instantiated with the queue length, which bounds the iteration count
because every iteration removes one queue element or stops).  Returns the
updated limiter and the leases sent to granted waiters, in send order. -/
def processQueueAux (fuel : Nat) (l : Limiter) (sent : List RateLimitLease) :
    Limiter × List RateLimitLease :=
  match fuel with
  | 0 => (l, sent)
  | fuel + 1 =>
    match nextOf l.config.order l.state.queue with
    | none => (l, sent)
    | some req =>
      if req.closed then
        let st := l.state
        let st := { st with
          queue := popOf l.config.order st.queue
          queueCount := st.queueCount - req.permitCount }
        processQueueAux fuel { l with state := st } sent
      else if l.state.availablePermits ≥ req.permitCount then
        let st := l.state
        let st := { st with
          queue := popOf l.config.order st.queue
          availablePermits := st.availablePermits - req.permitCount
          queueCount := st.queueCount - req.permitCount }
        let lease := createLease req.permitCount false
        processQueueAux fuel
          { l with state := st, successfulLeases := l.successfulLeases + 1 }
          (sent ++ [lease])
      else
        (l, sent)

/-- `process_queue_internal` entry point. -/
def processQueueInternal (l : Limiter) : Limiter × List RateLimitLease :=
  processQueueAux l.state.queue.length l []

/-- `ConcurrencyLimiter::try_acquire_immediate`.  Returns the granted lease (if
any) and the updated limiter; when no lease is granted the limiter is
unchanged, as in the source. -/
def tryAcquireImmediate (l : Limiter) (pc : Nat) (forSync : Bool) :
    Option RateLimitLease × Limiter :=
  if l.state.disposed then (none, l)
  else if pc = 0 ∧ l.state.availablePermits > 0 then
    (some RateLimitLease.success,
      { l with successfulLeases := l.successfulLeases + 1 })
  else if l.state.availablePermits ≥ pc ∧ pc > 0 ∧
      (l.state.queue = [] ∨ l.config.order = .newestFirst) then
    let st := { l.state with
      availablePermits := l.state.availablePermits - pc
      idleSince := none }
    (some (createLease pc forSync),
      { l with state := st, successfulLeases := l.successfulLeases + 1 })
  else
    (none, l)

/-- `RateLimiter::attempt_acquire` for `ConcurrencyLimiter`. -/
def attemptAcquire (l : Limiter) (pc : Nat) :
    Except RateLimitError RateLimitLease × Limiter :=
  if pc > l.config.permitLimit then
    (.error (.permitCountExceeded pc l.config.permitLimit), l)
  else if l.state.disposed then (.error .disposed, l)
  else if pc = 0 then
    if l.state.availablePermits > 0 then
      (.ok RateLimitLease.success,
        { l with successfulLeases := l.successfulLeases + 1 })
    else
      (.ok (RateLimitLease.failed none),
        { l with failedLeases := l.failedLeases + 1 })
  else
    match tryAcquireImmediate l pc true with
    | (some lease, l) => (.ok lease, l)
    | (none, l) =>
      (.ok (RateLimitLease.failed none),
        { l with failedLeases := l.failedLeases + 1 })

/-- The eviction loop in `acquire_async` (NewestFirst, queue over limit):
`while queue_count + n > queue_limit { pop_front; notify failed; }`.  Operates
on the queue and the running `queue_count`; returns the remaining queue, the
final count and the failed leases sent to the evicted waiters in eviction
order.  (When the queue is empty the loop body `break`s and when the guard
fails it stops; both leave the state unchanged, hence the merged `[]` case.) -/
def evictLoop (queueLimit pc : Nat) :
    List QueuedRequest → Nat → List QueuedRequest × Nat × List RateLimitLease
  | [], qc => ([], qc, [])
  | oldest :: rest, qc =>
    if qc + pc ≤ queueLimit then (oldest :: rest, qc, [])
    else
      let r := evictLoop queueLimit pc rest (qc - oldest.permitCount)
      (r.1, r.2.1, RateLimitLease.failed none :: r.2.2)

/-- Result of the locked section of `acquire_async`: a hard error, an
immediately returned lease (acquired fast path or failed-now), or the request
was appended to the queue. -/
inductive AsyncResult where
  | err (e : RateLimitError)
  | lease (lease : RateLimitLease)
  | queued
deriving DecidableEq, Repr

/-- The locked section of `ConcurrencyLimiter::acquire_async` (everything up to
releasing the lock and awaiting the oneshot channel).  Also returns the failed
leases sent to evicted waiters. -/
def acquireAsyncEnqueue (l : Limiter) (pc : Nat) :
    AsyncResult × Limiter × List RateLimitLease :=
  if pc > l.config.permitLimit then
    (.err (.permitCountExceeded pc l.config.permitLimit), l, [])
  else if l.state.disposed then (.err .disposed, l, [])
  else
    match tryAcquireImmediate l pc false with
    | (some lease, l) => (.lease lease, l, [])
    | (none, l) =>
      if l.state.queueCount + pc > l.config.queueLimit then
        if l.config.order = .newestFirst ∧ pc ≤ l.config.queueLimit then
          let r := evictLoop l.config.queueLimit pc l.state.queue l.state.queueCount
          let st := { l.state with queue := r.1, queueCount := r.2.1 }
          let l := { l with
            state := st, failedLeases := l.failedLeases + r.2.2.length }
          let st := { l.state with
            queue := l.state.queue ++ [{ permitCount := pc }]
            queueCount := l.state.queueCount + pc }
          (.queued, { l with state := st }, r.2.2)
        else
          (.lease (RateLimitLease.failed none),
            { l with failedLeases := l.failedLeases + 1 }, [])
      else
        let st := { l.state with
          queue := l.state.queue ++ [{ permitCount := pc }]
          queueCount := l.state.queueCount + pc }
        (.queued, { l with state := st }, [])

/-- The direct state update performed by the synchronous-mode release closure
(`create_lease`, `for_sync` branch) before it sends `0` on the channel. -/
def releaseSyncDirect (permitLimit pc : Nat) (now : ℚ) (st : State) : State :=
  if st.disposed then st
  else
    let available := st.availablePermits + pc
    { st with
      availablePermits := available
      idleSince := if available = permitLimit then some now else st.idleSince }

/-- One iteration of `run_queue_processor` consuming a `returned_permits`
message: credit the permits (a `0` message means the state was already updated
by the synchronous path) and drain the queue. -/
def queueProcessorStep (l : Limiter) (returned : Nat) (now : ℚ) :
    Limiter × List RateLimitLease :=
  if l.state.disposed then (l, [])
  else
    let l :=
      if returned > 0 then
        let available := l.state.availablePermits + returned
        { l with state := { l.state with
            availablePermits := available
            idleSince :=
              if available = l.config.permitLimit then some now
              else l.state.idleSince } }
      else l
    processQueueInternal l

/-- Full effect of dropping an acquired concurrency lease once the queue
processor has consumed the message it sends: the synchronous path updates the
state directly and sends `0`; the asynchronous path sends the permit count. -/
def releaseFull (l : Limiter) (pc : Nat) (forSync : Bool) (now : ℚ) :
    Limiter × List RateLimitLease :=
  if forSync then
    queueProcessorStep
      { l with state := releaseSyncDirect l.config.permitLimit pc now l.state }
      0 now
  else
    queueProcessorStep l pc now

end Concurrency

namespace FixedWindow

/-- `FixedWindowRateLimiterOptions`. -/
structure Options where
  permitLimit : Nat
  window : ℚ
  queueLimit : Nat
  order : QueueProcessingOrder
  autoReplenishment : Bool
deriving DecidableEq, Repr

/-- A queued request for the fixed-window limiter. -/
structure QueuedRequest where
  permitCount : Nat
  closed : Bool := false
deriving DecidableEq, Repr

/-- The mutex-protected `State` of `FixedWindowRateLimiter`. -/
structure State where
  availablePermits : Nat
  windowStart : ℚ
  queue : List QueuedRequest
  queueCount : Nat
  idleSince : Option ℚ
  disposed : Bool
deriving DecidableEq, Repr

/-- `FixedWindowRateLimiter`: state plus the two atomic lease counters. -/
structure Limiter where
  config : Options
  state : State
  successfulLeases : Nat
  failedLeases : Nat
deriving DecidableEq, Repr

/-- A fresh limiter (`FixedWindowRateLimiter::new`, after validation). -/
def Limiter.new (cfg : Options) (now : ℚ) : Limiter :=
  { config := cfg
    state :=
      { availablePermits := cfg.permitLimit
        windowStart := now
        queue := []
        queueCount := 0
        idleSince := some now
        disposed := false }
    successfulLeases := 0
    failedLeases := 0 }

/-- `FixedWindowRateLimiter::create_lease` (no cleanup: permits are consumed). -/
def createLease (_pc : Nat) : RateLimitLease := RateLimitLease.success

/-- `FixedWindowRateLimiter::calculate_retry_after`.  `Duration::saturating_sub`
never goes below zero, hence the `max 0`. -/
def calculateRetryAfter (cfg : Options) (st : State) (pc : Nat) (now : ℚ) : ℚ :=
  let elapsed := now - st.windowStart
  let remainingInWindow := max (cfg.window - elapsed) 0
  if st.availablePermits ≥ pc then 0
  else if pc ≤ cfg.permitLimit then remainingInWindow
  else cfg.window

/-- Queue head selection for the configured order. -/
def nextOf (order : QueueProcessingOrder) (q : List QueuedRequest) :
    Option QueuedRequest :=
  match order with
  | .oldestFirst => q.head?
  | .newestFirst => q.getLast?

/-- Pop from the configured end. -/
def popOf (order : QueueProcessingOrder) (q : List QueuedRequest) :
    List QueuedRequest :=
  match order with
  | .oldestFirst => q.tail
  | .newestFirst => q.dropLast

/-- `FixedWindowRateLimiter::process_queue_internal` (same loop as the
concurrency limiter, but grants also clear `idle_since` and the sent leases
have no cleanup). -/
def processQueueAux (fuel : Nat) (l : Limiter) (sent : List RateLimitLease) :
    Limiter × List RateLimitLease :=
  match fuel with
  | 0 => (l, sent)
  | fuel + 1 =>
    match nextOf l.config.order l.state.queue with
    | none => (l, sent)
    | some req =>
      if req.closed then
        let st := { l.state with
          queue := popOf l.config.order l.state.queue
          queueCount := l.state.queueCount - req.permitCount }
        processQueueAux fuel { l with state := st } sent
      else if l.state.availablePermits ≥ req.permitCount then
        let st := { l.state with
          queue := popOf l.config.order l.state.queue
          availablePermits := l.state.availablePermits - req.permitCount
          queueCount := l.state.queueCount - req.permitCount
          idleSince := none }
        processQueueAux fuel
          { l with state := st, successfulLeases := l.successfulLeases + 1 }
          (sent ++ [createLease req.permitCount])
      else
        (l, sent)

/-- `process_queue_internal` entry point. -/
def processQueueInternal (l : Limiter) : Limiter × List RateLimitLease :=
  processQueueAux l.state.queue.length l []

/-- `FixedWindowRateLimiter::replenish`: reset the window and drain the queue
(no-op on a disposed limiter). -/
def replenish (l : Limiter) (now : ℚ) : Limiter × List RateLimitLease :=
  if l.state.disposed then (l, [])
  else
    let st := { l.state with
      availablePermits := l.config.permitLimit
      windowStart := now }
    let st := { st with
      idleSince :=
        if st.availablePermits = l.config.permitLimit ∧ st.idleSince = none
        then some st.windowStart else st.idleSince }
    processQueueInternal { l with state := st }

/-- `FixedWindowRateLimiter::check_window_expiration` (manual mode only). -/
def checkWindowExpiration (cfg : Options) (st : State) (now : ℚ) : State :=
  if ¬cfg.autoReplenishment ∧ now - st.windowStart ≥ cfg.window then
    let st := { st with
      availablePermits := cfg.permitLimit
      windowStart := now }
    { st with
      idleSince :=
        if st.availablePermits = cfg.permitLimit ∧ st.idleSince = none
        then some st.windowStart else st.idleSince }
  else st

/-- `FixedWindowRateLimiter::try_acquire_immediate`. -/
def tryAcquireImmediate (l : Limiter) (pc : Nat) (now : ℚ) :
    Option RateLimitLease × Limiter :=
  if l.state.disposed then (none, l)
  else
    let l := { l with state := checkWindowExpiration l.config l.state now }
    if pc = 0 ∧ l.state.availablePermits > 0 then
      (some RateLimitLease.success,
        { l with successfulLeases := l.successfulLeases + 1 })
    else if l.state.availablePermits ≥ pc ∧ pc > 0 ∧
        (l.state.queue = [] ∨ l.config.order = .newestFirst) then
      let st := { l.state with
        availablePermits := l.state.availablePermits - pc
        idleSince := none }
      (some (createLease pc),
        { l with state := st, successfulLeases := l.successfulLeases + 1 })
    else
      (none, l)

/-- `RateLimiter::attempt_acquire` for `FixedWindowRateLimiter`. -/
def attemptAcquire (l : Limiter) (pc : Nat) (now : ℚ) :
    Except RateLimitError RateLimitLease × Limiter :=
  if pc > l.config.permitLimit then
    (.error (.permitCountExceeded pc l.config.permitLimit), l)
  else if l.state.disposed then (.error .disposed, l)
  else if pc = 0 then
    let l := { l with state := checkWindowExpiration l.config l.state now }
    if l.state.availablePermits > 0 then
      (.ok RateLimitLease.success,
        { l with successfulLeases := l.successfulLeases + 1 })
    else
      (.ok (RateLimitLease.failed (some (calculateRetryAfter l.config l.state 1 now))),
        { l with failedLeases := l.failedLeases + 1 })
  else
    match tryAcquireImmediate l pc now with
    | (some lease, l) => (.ok lease, l)
    | (none, l) =>
      (.ok (RateLimitLease.failed (some (calculateRetryAfter l.config l.state pc now))),
        { l with failedLeases := l.failedLeases + 1 })

/-- The eviction loop in `acquire_async`; each evicted waiter is notified with
a failed lease carrying a retry hint (computed before the `queue_count`
decrement affects nothing here: `calculate_retry_after` for the fixed window
reads only `available_permits` and `window_start`). -/
def evictLoop (cfg : Options) (stAvail : Nat) (stWindowStart : ℚ) (now : ℚ)
    (pc : Nat) :
    List QueuedRequest → Nat → List QueuedRequest × Nat × List RateLimitLease
  | [], qc => ([], qc, [])
  | oldest :: rest, qc =>
    if qc + pc ≤ cfg.queueLimit then (oldest :: rest, qc, [])
    else
      let retry := calculateRetryAfter cfg
        { availablePermits := stAvail, windowStart := stWindowStart,
          queue := [], queueCount := 0, idleSince := none, disposed := false }
        oldest.permitCount now
      let r := evictLoop cfg stAvail stWindowStart now pc rest
        (qc - oldest.permitCount)
      (r.1, r.2.1, RateLimitLease.failed (some retry) :: r.2.2)

/-- Result of the locked section of `acquire_async`. -/
inductive AsyncResult where
  | err (e : RateLimitError)
  | lease (lease : RateLimitLease)
  | queued
deriving DecidableEq, Repr

/-- The locked section of `FixedWindowRateLimiter::acquire_async`. -/
def acquireAsyncEnqueue (l : Limiter) (pc : Nat) (now : ℚ) :
    AsyncResult × Limiter × List RateLimitLease :=
  if pc > l.config.permitLimit then
    (.err (.permitCountExceeded pc l.config.permitLimit), l, [])
  else if l.state.disposed then (.err .disposed, l, [])
  else
    match tryAcquireImmediate l pc now with
    | (some lease, l) => (.lease lease, l, [])
    | (none, l) =>
      if l.state.queueCount + pc > l.config.queueLimit then
        if l.config.order = .newestFirst ∧ pc ≤ l.config.queueLimit then
          let r := evictLoop l.config l.state.availablePermits
            l.state.windowStart now pc l.state.queue l.state.queueCount
          let l := { l with
            state := { l.state with queue := r.1, queueCount := r.2.1 }
            failedLeases := l.failedLeases + r.2.2.length }
          let st := { l.state with
            queue := l.state.queue ++ [{ permitCount := pc }]
            queueCount := l.state.queueCount + pc }
          (.queued, { l with state := st }, r.2.2)
        else
          (.lease (RateLimitLease.failed
              (some (calculateRetryAfter l.config l.state pc now))),
            { l with failedLeases := l.failedLeases + 1 }, [])
      else
        let st := { l.state with
          queue := l.state.queue ++ [{ permitCount := pc }]
          queueCount := l.state.queueCount + pc }
        (.queued, { l with state := st }, [])

/-- `ReplenishingRateLimiter::try_replenish` for `FixedWindowRateLimiter`. -/
def tryReplenish (l : Limiter) (now : ℚ) :
    Bool × Limiter × List RateLimitLease :=
  if l.config.autoReplenishment then (false, l, [])
  else
    let r := replenish l now
    (true, r.1, r.2)

end FixedWindow

namespace TokenBucket

/-- `TokenBucketRateLimiterOptions`. -/
structure Options where
  tokenLimit : Nat
  tokensPerPeriod : Nat
  replenishmentPeriod : ℚ
  queueLimit : Nat
  order : QueueProcessingOrder
  autoReplenishment : Bool
deriving DecidableEq, Repr

/-- A queued request for the token-bucket limiter. -/
structure QueuedRequest where
  tokenCount : Nat
  closed : Bool := false
deriving DecidableEq, Repr

/-- The mutex-protected `State` of `TokenBucketRateLimiter` (the `f64`
reservoir is modelled by `ℚ`). -/
structure State where
  availableTokens : ℚ
  queue : List QueuedRequest
  queueCount : Nat
  lastReplenishment : ℚ
  idleSince : Option ℚ
  disposed : Bool
deriving DecidableEq, Repr

/-- `TokenBucketRateLimiter`: state plus the two atomic lease counters. -/
structure Limiter where
  config : Options
  state : State
  successfulLeases : Nat
  failedLeases : Nat
deriving DecidableEq, Repr

/-- A fresh limiter (`TokenBucketRateLimiter::new`, after validation). -/
def Limiter.new (cfg : Options) (now : ℚ) : Limiter :=
  { config := cfg
    state :=
      { availableTokens := cfg.tokenLimit
        queue := []
        queueCount := 0
        lastReplenishment := now
        idleSince := some now
        disposed := false }
    successfulLeases := 0
    failedLeases := 0 }

/-- `TokenBucketRateLimiter::create_lease` (no cleanup: tokens are consumed). -/
def createLease (_tc : Nat) : RateLimitLease := RateLimitLease.success

/-- `TokenBucketRateLimiter::calculate_retry_after`: the shortfall is clamped
at zero (`.max(0.0)`) before the queued tokens are added, the period count is
the ceiling of the total over `tokens_per_period`, and at least one period is
always charged. -/
def calculateRetryAfter (cfg : Options) (st : State) (tc : Nat) : ℚ :=
  let tokensNeeded := max ((tc : ℚ) - st.availableTokens) 0
  let totalTokensNeeded := tokensNeeded + (st.queueCount : ℚ)
  let periodsNeeded := (totalTokensNeeded / (cfg.tokensPerPeriod : ℚ)).ceil.toNat
  let periods := max periodsNeeded 1
  cfg.replenishmentPeriod * periods

/-- Queue head selection for the configured order. -/
def nextOf (order : QueueProcessingOrder) (q : List QueuedRequest) :
    Option QueuedRequest :=
  match order with
  | .oldestFirst => q.head?
  | .newestFirst => q.getLast?

/-- Pop from the configured end. -/
def popOf (order : QueueProcessingOrder) (q : List QueuedRequest) :
    List QueuedRequest :=
  match order with
  | .oldestFirst => q.tail
  | .newestFirst => q.dropLast

/-- `TokenBucketRateLimiter::process_queue_internal`. -/
def processQueueAux (fuel : Nat) (l : Limiter) (sent : List RateLimitLease) :
    Limiter × List RateLimitLease :=
  match fuel with
  | 0 => (l, sent)
  | fuel + 1 =>
    match nextOf l.config.order l.state.queue with
    | none => (l, sent)
    | some req =>
      if req.closed then
        let st := { l.state with
          queue := popOf l.config.order l.state.queue
          queueCount := l.state.queueCount - req.tokenCount }
        processQueueAux fuel { l with state := st } sent
      else if l.state.availableTokens ≥ (req.tokenCount : ℚ) then
        let st := { l.state with
          queue := popOf l.config.order l.state.queue
          availableTokens := l.state.availableTokens - (req.tokenCount : ℚ)
          queueCount := l.state.queueCount - req.tokenCount
          idleSince := none }
        processQueueAux fuel
          { l with state := st, successfulLeases := l.successfulLeases + 1 }
          (sent ++ [createLease req.tokenCount])
      else
        (l, sent)

/-- `process_queue_internal` entry point. -/
def processQueueInternal (l : Limiter) : Limiter × List RateLimitLease :=
  processQueueAux l.state.queue.length l []

/-- `TokenBucketRateLimiter::replenish`.  In auto mode the tokens added are
proportional to elapsed time; in manual mode exactly `tokens_per_period` are
added.  Nothing happens when `tokens_to_add` is not positive. -/
def replenish (l : Limiter) (now : ℚ) : Limiter × List RateLimitLease :=
  if l.state.disposed then (l, [])
  else
    let tokensToAdd : ℚ :=
      if l.config.autoReplenishment then
        ((now - l.state.lastReplenishment) / l.config.replenishmentPeriod) *
          (l.config.tokensPerPeriod : ℚ)
      else (l.config.tokensPerPeriod : ℚ)
    if tokensToAdd > 0 then
      let available :=
        min (l.state.availableTokens + tokensToAdd) (l.config.tokenLimit : ℚ)
      let st := { l.state with
        availableTokens := available
        lastReplenishment := now }
      let st := { st with
        idleSince :=
          if available ≥ (l.config.tokenLimit : ℚ) - 1 / 1000 ∧
              st.idleSince = none
          then some now else st.idleSince }
      processQueueInternal { l with state := st }
    else (l, [])

/-- `TokenBucketRateLimiter::try_acquire_immediate`. -/
def tryAcquireImmediate (l : Limiter) (tc : Nat) :
    Option RateLimitLease × Limiter :=
  if l.state.disposed then (none, l)
  else if tc = 0 ∧ l.state.availableTokens > 0 then
    (some RateLimitLease.success,
      { l with successfulLeases := l.successfulLeases + 1 })
  else if l.state.availableTokens ≥ (tc : ℚ) ∧ tc > 0 ∧
      (l.state.queue = [] ∨ l.config.order = .newestFirst) then
    let st := { l.state with
      availableTokens := l.state.availableTokens - (tc : ℚ)
      idleSince := none }
    (some (createLease tc),
      { l with state := st, successfulLeases := l.successfulLeases + 1 })
  else
    (none, l)

/-- `RateLimiter::attempt_acquire` for `TokenBucketRateLimiter`. -/
def attemptAcquire (l : Limiter) (tc : Nat) :
    Except RateLimitError RateLimitLease × Limiter :=
  if tc > l.config.tokenLimit then
    (.error (.permitCountExceeded tc l.config.tokenLimit), l)
  else if l.state.disposed then (.error .disposed, l)
  else if tc = 0 then
    if l.state.availableTokens > 0 then
      (.ok RateLimitLease.success,
        { l with successfulLeases := l.successfulLeases + 1 })
    else
      (.ok (RateLimitLease.failed (some (calculateRetryAfter l.config l.state 1))),
        { l with failedLeases := l.failedLeases + 1 })
  else
    match tryAcquireImmediate l tc with
    | (some lease, l) => (.ok lease, l)
    | (none, l) =>
      (.ok (RateLimitLease.failed (some (calculateRetryAfter l.config l.state tc))),
        { l with failedLeases := l.failedLeases + 1 })

/-- The eviction loop in `acquire_async`.  The source decrements `queue_count`
before computing the evicted waiter's retry hint, and the token-bucket hint
reads `queue_count`, so the loop threads the running count into the hint. -/
def evictLoop (cfg : Options) (stAvail : ℚ) (pc : Nat) :
    List QueuedRequest → Nat → List QueuedRequest × Nat × List RateLimitLease
  | [], qc => ([], qc, [])
  | oldest :: rest, qc =>
    if qc + pc ≤ cfg.queueLimit then (oldest :: rest, qc, [])
    else
      let qcAfter := qc - oldest.tokenCount
      let retry := calculateRetryAfter cfg
        { availableTokens := stAvail, queue := [], queueCount := qcAfter,
          lastReplenishment := 0, idleSince := none, disposed := false }
        oldest.tokenCount
      let r := evictLoop cfg stAvail pc rest qcAfter
      (r.1, r.2.1, RateLimitLease.failed (some retry) :: r.2.2)

/-- Result of the locked section of `acquire_async`. -/
inductive AsyncResult where
  | err (e : RateLimitError)
  | lease (lease : RateLimitLease)
  | queued
deriving DecidableEq, Repr

/-- The locked section of `TokenBucketRateLimiter::acquire_async`. -/
def acquireAsyncEnqueue (l : Limiter) (tc : Nat) :
    AsyncResult × Limiter × List RateLimitLease :=
  if tc > l.config.tokenLimit then
    (.err (.permitCountExceeded tc l.config.tokenLimit), l, [])
  else if l.state.disposed then (.err .disposed, l, [])
  else
    match tryAcquireImmediate l tc with
    | (some lease, l) => (.lease lease, l, [])
    | (none, l) =>
      if l.state.queueCount + tc > l.config.queueLimit then
        if l.config.order = .newestFirst ∧ tc ≤ l.config.queueLimit then
          let r := evictLoop l.config l.state.availableTokens tc
            l.state.queue l.state.queueCount
          let l := { l with
            state := { l.state with queue := r.1, queueCount := r.2.1 }
            failedLeases := l.failedLeases + r.2.2.length }
          let st := { l.state with
            queue := l.state.queue ++ [{ tokenCount := tc }]
            queueCount := l.state.queueCount + tc }
          (.queued, { l with state := st }, r.2.2)
        else
          (.lease (RateLimitLease.failed
              (some (calculateRetryAfter l.config l.state tc))),
            { l with failedLeases := l.failedLeases + 1 }, [])
      else
        let st := { l.state with
          queue := l.state.queue ++ [{ tokenCount := tc }]
          queueCount := l.state.queueCount + tc }
        (.queued, { l with state := st }, [])

/-- `ReplenishingRateLimiter::try_replenish` for `TokenBucketRateLimiter`. -/
def tryReplenish (l : Limiter) (now : ℚ) :
    Bool × Limiter × List RateLimitLease :=
  if l.config.autoReplenishment then (false, l, [])
  else
    let r := replenish l now
    (true, r.1, r.2)

end TokenBucket

namespace SlidingWindow

/-- `SlidingWindowRateLimiterOptions`. -/
structure Options where
  permitLimit : Nat
  window : ℚ
  segmentsPerWindow : Nat
  queueLimit : Nat
  order : QueueProcessingOrder
  autoReplenishment : Bool
deriving DecidableEq, Repr

/-- A segment of the sliding window. -/
structure Segment where
  expiresAt : ℚ
  count : Nat
deriving DecidableEq, Repr

/-- A queued request for the sliding-window limiter. -/
structure QueuedRequest where
  permitsRequested : Nat
  queuedAt : ℚ
deriving DecidableEq, Repr

/-- The mutex-protected `State` of `SlidingWindowRateLimiter` (the
`auto_replenish_timer` task handle carries no algorithmic state and is
omitted). -/
structure State where
  segments : List Segment
  queue : List QueuedRequest
  queueCount : Nat
  idleSince : Option ℚ
  disposed : Bool
deriving DecidableEq, Repr

/-- `SlidingWindowRateLimiter`: state, the two `AtomicU32` lease counters and
the `processing_scheduled` flag. -/
structure Limiter where
  config : Options
  state : State
  totalSuccessfulLeases : Nat
  totalFailedLeases : Nat
  processingScheduled : Bool
deriving DecidableEq, Repr

/-- A fresh limiter (`SlidingWindowRateLimiter::new`). -/
def Limiter.new (cfg : Options) (now : ℚ) : Limiter :=
  { config := cfg
    state :=
      { segments := []
        queue := []
        queueCount := 0
        idleSince := some now
        disposed := false }
    totalSuccessfulLeases := 0
    totalFailedLeases := 0
    processingScheduled := false }

/-- `SlidingWindowRateLimiter::remove_expired_segments`: pop front segments
whose `expires_at ≤ now`, stopping at the first live one. -/
def removeExpiredSegments (now : ℚ) : List Segment → List Segment
  | [] => []
  | seg :: rest =>
    if seg.expiresAt ≤ now then removeExpiredSegments now rest
    else seg :: rest

/-- `SlidingWindowRateLimiter::available_permits`:
`permit_limit.saturating_sub(sum of live segment counts)`. -/
def availablePermits (cfg : Options) (st : State) : Nat :=
  cfg.permitLimit - (st.segments.map Segment.count).sum

/-- `SlidingWindowRateLimiter::record_acquisition`: add to the most recent
segment if it was created within the current sub-window, else open a new
segment expiring a full window from now. -/
def recordAcquisition (cfg : Options) (now : ℚ) (st : State) (count : Nat) :
    State :=
  match st.segments.getLast? with
  | some last =>
    let segmentAge := now - (last.expiresAt - cfg.window)
    let segmentDuration := cfg.window / (cfg.segmentsPerWindow : ℚ)
    if segmentAge < segmentDuration then
      { st with segments :=
          st.segments.dropLast ++ [{ last with count := last.count + count }] }
    else
      { st with segments :=
          st.segments ++ [{ expiresAt := now + cfg.window, count := count }] }
  | none =>
    { st with segments :=
        st.segments ++ [{ expiresAt := now + cfg.window, count := count }] }

/-- `SlidingWindowRateLimiter::calculate_retry_after`: time until the oldest
live segment expires, zero when there is none (or it already expired). -/
def calculateRetryAfter (now : ℚ) (st : State) : ℚ :=
  match st.segments.head? with
  | some oldest => if oldest.expiresAt > now then oldest.expiresAt - now else 0
  | none => 0

/-- `RateLimiter::attempt_acquire` for `SlidingWindowRateLimiter`.  Note: a
request above capacity yields an `Ok` failed lease (not a hard error), and the
counters are bumped by `permit_count`, not by one. -/
def attemptAcquire (l : Limiter) (pc : Nat) (now : ℚ) :
    Except RateLimitError RateLimitLease × Limiter :=
  if pc > l.config.permitLimit then (.ok (RateLimitLease.failed none), l)
  else if l.state.disposed then (.error .disposed, l)
  else
    let st := { l.state with
      segments := removeExpiredSegments now l.state.segments }
    let available := availablePermits l.config st
    if available ≥ pc then
      let st := recordAcquisition l.config now st pc
      let st := { st with idleSince := none }
      (.ok RateLimitLease.success,
        { l with state := st
                 totalSuccessfulLeases := l.totalSuccessfulLeases + pc })
    else
      let retry := calculateRetryAfter now st
      (.ok (RateLimitLease.failed (some retry)),
        { l with state := st
                 totalFailedLeases := l.totalFailedLeases + pc })

/-- Outcome of `SlidingWindowRateLimiter::try_acquire_or_queue`. -/
inductive AcquireResult where
  | immediate (lease : RateLimitLease)
  | queued
deriving DecidableEq, Repr

/-- `SlidingWindowRateLimiter::try_acquire_or_queue` (the state mutation behind
`acquire_async`).  There is no eviction: when the queue lacks room the caller
gets an immediate failed lease regardless of the processing order. -/
def tryAcquireOrQueue (l : Limiter) (pc : Nat) (now : ℚ) :
    AcquireResult × Limiter :=
  if pc > l.config.permitLimit then (.immediate (RateLimitLease.failed none), l)
  else if l.state.disposed then (.immediate (RateLimitLease.failed none), l)
  else
    let st := { l.state with
      segments := removeExpiredSegments now l.state.segments }
    let available := availablePermits l.config st
    if available ≥ pc then
      let st := recordAcquisition l.config now st pc
      let st := { st with idleSince := none }
      (.immediate RateLimitLease.success, { l with state := st })
    else if st.queueCount + pc ≤ l.config.queueLimit then
      let st := { st with
        queue := st.queue ++ [{ permitsRequested := pc, queuedAt := now }]
        queueCount := st.queueCount + pc
        idleSince := none }
      (.queued, { l with state := st })
    else
      let retry := calculateRetryAfter now st
      (.immediate (RateLimitLease.failed (some retry)), { l with state := st })

/-- First pass of `SlidingWindowRateLimiter::process_queue`: walk the queue
indices in the configured order, record each grantable request (also recording
its acquisition into the segments), and break once no permits remain. -/
def processQueueFirstPass (cfg : Options) (now : ℚ) :
    List Nat → State → List (Nat × Nat) → Nat → State × List (Nat × Nat) × Nat
  | [], st, acc, granted => (st, acc, granted)
  | idx :: rest, st, acc, granted =>
    match st.queue.get? idx with
    | none => processQueueFirstPass cfg now rest st acc granted
    | some req =>
      if availablePermits cfg st ≥ req.permitsRequested then
        let st := recordAcquisition cfg now st req.permitsRequested
        let acc := acc ++ [(idx, req.permitsRequested)]
        let granted := granted + req.permitsRequested
        if availablePermits cfg st = 0 then (st, acc, granted)
        else processQueueFirstPass cfg now rest st acc granted
      else
        processQueueFirstPass cfg now rest st acc granted

/-- Insertion into a list sorted descending on the first component
(`sort_unstable_by(|a, b| b.0.cmp(&a.0))`). -/
def insertDescFst (p : Nat × Nat) : List (Nat × Nat) → List (Nat × Nat)
  | [] => [p]
  | q :: rest => if p.1 ≥ q.1 then p :: q :: rest else q :: insertDescFst p rest

/-- Sort descending on the first component. -/
def sortDescFst : List (Nat × Nat) → List (Nat × Nat)
  | [] => []
  | p :: rest => insertDescFst p (sortDescFst rest)

/-- Second pass of `process_queue`: remove the granted requests (largest index
first) and send each a success lease. -/
def processQueueSecondPass :
    List (Nat × Nat) → State → List RateLimitLease → State × List RateLimitLease
  | [], st, sent => (st, sent)
  | (idx, _) :: rest, st, sent =>
    match st.queue.get? idx with
    | none => processQueueSecondPass rest st sent
    | some req =>
      let st := { st with
        queue := st.queue.eraseIdx idx
        queueCount := st.queueCount - req.permitsRequested }
      processQueueSecondPass rest st (sent ++ [RateLimitLease.success])

/-- `SlidingWindowRateLimiter::process_queue`: returns the updated state, the
number of permits granted, and the success leases sent. -/
def processQueue (cfg : Options) (now : ℚ) (st : State) :
    State × Nat × List RateLimitLease :=
  let indices :=
    match cfg.order with
    | .oldestFirst => List.range st.queue.length
    | .newestFirst => (List.range st.queue.length).reverse
  let fp := processQueueFirstPass cfg now indices st [] 0
  let sp := processQueueSecondPass (sortDescFst fp.2.1) fp.1 []
  (sp.1, fp.2.2, sp.2)

/-- `SlidingWindowRateLimiter::replenish_core`: drop expired segments, drain
the queue, refresh `idle_since`, clear the `processing_scheduled` flag and
report whether any permits were granted. -/
def replenishCore (l : Limiter) (now : ℚ) :
    Bool × Limiter × List RateLimitLease :=
  if l.state.disposed then (false, { l with processingScheduled := false }, [])
  else
    let st := { l.state with
      segments := removeExpiredSegments now l.state.segments }
    let r := processQueue l.config now st
    let st := r.1
    let st :=
      if st.queue = [] ∧ st.idleSince = none then
        { st with idleSince := some now }
      else st
    (r.2.1 > 0, { l with state := st, processingScheduled := false }, r.2.2)

/-- `ReplenishingRateLimiter::try_replenish` for `SlidingWindowRateLimiter`:
`false` in auto mode or when a replenish is already in flight; otherwise the
flag is set and `replenish_core` runs, whose boolean is whether any queued
request was granted. -/
def tryReplenish (l : Limiter) (now : ℚ) :
    Bool × Limiter × List RateLimitLease :=
  if l.config.autoReplenishment then (false, l, [])
  else if l.processingScheduled then (false, l, [])
  else replenishCore { l with processingScheduled := true } now

end SlidingWindow

/-- Replace the element at an index, leaving the list unchanged when the index
is out of range (models mutating one `Arc`-shared limiter among several). -/
def updateAt {α : Type} : List α → Nat → (α → α) → List α
  | [], _, _ => []
  | x :: rest, 0, f => f x :: rest
  | x :: rest, n + 1, f => x :: updateAt rest n f

namespace Chained

/-- A dynamically dispatched limiter (`Arc<dyn RateLimiter>`): the closed set
of the four concrete algorithms. -/
inductive AnyLimiter where
  | conc (l : Concurrency.Limiter)
  | fw (l : FixedWindow.Limiter)
  | tb (l : TokenBucket.Limiter)
  | sw (l : SlidingWindow.Limiter)
deriving DecidableEq, Repr

/-- Dynamic dispatch of `RateLimiter::attempt_acquire`. -/
def attemptAcquireAny (now : ℚ) (pc : Nat) (l : AnyLimiter) :
    Except RateLimitError RateLimitLease × AnyLimiter :=
  match l with
  | .conc c =>
    let r := Concurrency.attemptAcquire c pc
    (r.1, .conc r.2)
  | .fw f =>
    let r := FixedWindow.attemptAcquire f pc now
    (r.1, .fw r.2)
  | .tb t =>
    let r := TokenBucket.attemptAcquire t pc
    (r.1, .tb r.2)
  | .sw s =>
    let r := SlidingWindow.attemptAcquire s pc now
    (r.1, .sw r.2)

/-- Firing a lease's release hook against the limiter that issued it.  Only a
concurrency lease carries a hook; every other lease drop is a no-op. -/
def applyRelease (now : ℚ) (a : ReleaseAction) (l : AnyLimiter) : AnyLimiter :=
  match a, l with
  | .concReturn pc forSync, .conc c =>
    .conc (Concurrency.releaseFull c pc forSync now).1
  | _, l => l

/-- An inner lease held by the chained composer, tagged with the zero-based
index of the limiter whose state its release closure captured. -/
structure InnerLease where
  idx : Nat
  lease : RateLimitLease
deriving DecidableEq, Repr

/-- Dropping a `Vec<RateLimitLease>`: Rust drops the elements front-to-back
(index order), so the hooks fire in acquisition order. -/
def releaseAll (now : ℚ) (acquired : List InnerLease) (ls : List AnyLimiter) :
    List AnyLimiter :=
  acquired.foldl (fun ls il => updateAt ls il.idx (applyRelease now il.lease.release)) ls

/-- Outcome of a chained acquisition: either the first inner failed lease (to
be annotated with `FailedLimiterIndex`) or the synthetic combined lease
wrapping the inner leases. -/
inductive ChainOutcome where
  | failedLease (lease : RateLimitLease)
  | combined (inner : List InnerLease)
deriving DecidableEq, Repr

/-- The loop of `ChainedRateLimiter::attempt_acquire`: `done` holds the
already-visited limiters (updated in place), `pending` the rest, `acquired`
the inner leases collected so far.  On a failed inner lease or error the
acquired leases are dropped (releasing in acquisition order) and the first
failure is surfaced. -/
def chainedGo (now : ℚ) (pc : Nat) :
    List AnyLimiter → List AnyLimiter → List InnerLease →
    Except RateLimitError ChainOutcome × List AnyLimiter
  | done, [], acquired => (.ok (.combined acquired), done)
  | done, lim :: rest, acquired =>
    let r := attemptAcquireAny now pc lim
    match r.1 with
    | .ok lease =>
      if lease.isAcquired then
        chainedGo now pc (done ++ [r.2]) rest
          (acquired ++ [{ idx := done.length, lease := lease }])
      else
        (.ok (.failedLease { lease with failedLimiterIndex := some done.length }),
          releaseAll now acquired done ++ r.2 :: rest)
    | .error e => (.error e, releaseAll now acquired done ++ r.2 :: rest)

/-- `ChainedRateLimiter::attempt_acquire`. -/
def chainedAttemptAcquire (now : ℚ) (ls : List AnyLimiter) (pc : Nat) :
    Except RateLimitError ChainOutcome × List AnyLimiter :=
  chainedGo now pc [] ls []

/-- `ChainedRateLimiter::new`: an empty vector is rejected. -/
def chainedNew (ls : List AnyLimiter) :
    Except RateLimitError (List AnyLimiter) :=
  if ls = [] then
    .error (.invalidParameter "Must provide at least 1 limiter")
  else .ok ls

/-- The order in which dropping the combined lease fires the inner release
hooks: `drop(leases)` on the captured `Vec` drops front-to-back, i.e. in
acquisition order. -/
def combinedReleaseEvents (inner : List InnerLease) : List Nat :=
  inner.map InnerLease.idx

/-- State effect of dropping the combined lease. -/
def combinedRelease (now : ℚ) (inner : List InnerLease)
    (ls : List AnyLimiter) : List AnyLimiter :=
  releaseAll now inner ls

end Chained

namespace Partitioned

open Chained

/-- `PartitionedRateLimiter<TResource, TKey>`: the key-to-limiter map (as an
association list) plus the partitioner function.  The unused `idle_time_limit`
carries no behaviour and is omitted. -/
structure PartitionedRateLimiter (ρ κ : Type) where
  limiters : List (κ × AnyLimiter)
  partitioner : ρ → κ × AnyLimiter

/-- Fresh partitioned limiter (`PartitionedRateLimiter::new`). -/
def PartitionedRateLimiter.new {ρ κ : Type} (partitioner : ρ → κ × AnyLimiter) :
    PartitionedRateLimiter ρ κ :=
  { limiters := [], partitioner := partitioner }

/-- Association-list lookup modelling `HashMap::entry` resolution. -/
def findLimiter {κ : Type} [DecidableEq κ] (k : κ) :
    List (κ × AnyLimiter) → Option AnyLimiter
  | [] => none
  | (k2, l) :: rest => if k = k2 then some l else findLimiter k rest

/-- Write back the (shared, interiorly mutated) limiter stored under a key. -/
def storeLimiter {κ : Type} [DecidableEq κ] (k : κ) (v : AnyLimiter) :
    List (κ × AnyLimiter) → List (κ × AnyLimiter)
  | [] => []
  | (k2, l) :: rest =>
    if k = k2 then (k2, v) :: rest else (k2, l) :: storeLimiter k v rest

/-- `PartitionedRateLimiter::get_limiter`: the partitioner always runs and
produces a `(key, limiter)` pair, but `entry(key).or_insert_with(..)` keeps an
existing limiter and discards the fresh one. -/
def getLimiter {ρ κ : Type} [DecidableEq κ] (p : PartitionedRateLimiter ρ κ) (r : ρ) :
    AnyLimiter × PartitionedRateLimiter ρ κ :=
  let kf := p.partitioner r
  match findLimiter kf.1 p.limiters with
  | some l => (l, p)
  | none => (kf.2, { p with limiters := p.limiters ++ [(kf.1, kf.2)] })

/-- `PartitionedRateLimiter::attempt_acquire`: resolve the partition's limiter
and delegate; the limiter's state change is visible through the shared map. -/
def attemptAcquire {ρ κ : Type} [DecidableEq κ] (p : PartitionedRateLimiter ρ κ) (r : ρ)
    (pc : Nat) (now : ℚ) :
    Except RateLimitError RateLimitLease × PartitionedRateLimiter ρ κ :=
  let kf := p.partitioner r
  let g := getLimiter p r
  let a := attemptAcquireAny now pc g.1
  (a.1, { g.2 with limiters := storeLimiter kf.1 a.2 g.2.limiters })

/-- `PartitionedRateLimiter::partition_count`. -/
def partitionCount {ρ κ : Type} (p : PartitionedRateLimiter ρ κ) : Nat :=
  p.limiters.length

/-- `PartitionedRateLimiter::clear`. -/
def clear {ρ κ : Type} (p : PartitionedRateLimiter ρ κ) : PartitionedRateLimiter ρ κ :=
  { p with limiters := [] }

end Partitioned

/-!
Claim theorems.
-/

/-- C1 (counterexample): the claim states that every limiter answers a request
for more than its capacity with the hard error `PermitCountExceeded`.  The
sliding-window limiter does not: on a fresh limiter with `permit_limit = 4`, a
request for 5 permits yields an `Ok` failed lease (with no retry hint) from
`attempt_acquire`, and an immediate failed lease (never the error) from the
state mutation behind `acquire_async`. -/
theorem slidingWindow_overCapacity_is_failed_lease_not_error :
    (SlidingWindow.attemptAcquire
        (SlidingWindow.Limiter.new ⟨4, 100, 4, 0, .oldestFirst, false⟩ 0) 5 0).1
      = .ok (RateLimitLease.failed none) ∧
    (SlidingWindow.attemptAcquire
        (SlidingWindow.Limiter.new ⟨4, 100, 4, 0, .oldestFirst, false⟩ 0) 5 0).1
      ≠ .error (.permitCountExceeded 5 4) ∧
    (SlidingWindow.tryAcquireOrQueue
        (SlidingWindow.Limiter.new ⟨4, 100, 4, 0, .oldestFirst, false⟩ 0) 5 0).1
      = .immediate (RateLimitLease.failed none) := by
  refine ⟨rfl, ?_, rfl⟩
  intro h
  simp [SlidingWindow.attemptAcquire, SlidingWindow.Limiter.new] at h

/-- C1 (amended): for the concurrency, fixed-window and token-bucket limiters,
a request for `n` permits with `n` strictly above the capacity makes both the
non-blocking and the waiting acquisition return
`PermitCountExceeded(n, capacity)` and leave the limiter untouched (nothing is
queued); the sliding-window limiter instead returns an `Ok` failed lease with
no retry hint from both forms, also without queueing. -/
theorem overCapacity_request_behaviour
    (lc : Concurrency.Limiter) (lf : FixedWindow.Limiter)
    (lt : TokenBucket.Limiter) (lsw : SlidingWindow.Limiter)
    (n₁ n₂ n₃ n₄ : Nat) (now : ℚ)
    (h₁ : n₁ > lc.config.permitLimit) (h₂ : n₂ > lf.config.permitLimit)
    (h₃ : n₃ > lt.config.tokenLimit) (h₄ : n₄ > lsw.config.permitLimit) :
    Concurrency.attemptAcquire lc n₁
      = (.error (.permitCountExceeded n₁ lc.config.permitLimit), lc) ∧
    Concurrency.acquireAsyncEnqueue lc n₁
      = (.err (.permitCountExceeded n₁ lc.config.permitLimit), lc, []) ∧
    FixedWindow.attemptAcquire lf n₂ now
      = (.error (.permitCountExceeded n₂ lf.config.permitLimit), lf) ∧
    FixedWindow.acquireAsyncEnqueue lf n₂ now
      = (.err (.permitCountExceeded n₂ lf.config.permitLimit), lf, []) ∧
    TokenBucket.attemptAcquire lt n₃
      = (.error (.permitCountExceeded n₃ lt.config.tokenLimit), lt) ∧
    TokenBucket.acquireAsyncEnqueue lt n₃
      = (.err (.permitCountExceeded n₃ lt.config.tokenLimit), lt, []) ∧
    SlidingWindow.attemptAcquire lsw n₄ now
      = (.ok (RateLimitLease.failed none), lsw) ∧
    SlidingWindow.tryAcquireOrQueue lsw n₄ now
      = (.immediate (RateLimitLease.failed none), lsw) := by
  refine ⟨?_, ?_, ?_, ?_, ?_, ?_, ?_, ?_⟩ <;>
    simp [Concurrency.attemptAcquire, Concurrency.acquireAsyncEnqueue,
      FixedWindow.attemptAcquire, FixedWindow.acquireAsyncEnqueue,
      TokenBucket.attemptAcquire, TokenBucket.acquireAsyncEnqueue,
      SlidingWindow.attemptAcquire, SlidingWindow.tryAcquireOrQueue,
      h₁, h₂, h₃, h₄]

/-- C1 (witness): the amended theorem applied to fresh limiters of capacity 2
and a request for 3 permits. -/
theorem overCapacity_request_behaviour_witness :
    Concurrency.attemptAcquire (Concurrency.Limiter.new ⟨2, 0, .oldestFirst⟩ 0) 3
      = (.error (.permitCountExceeded 3 2), Concurrency.Limiter.new ⟨2, 0, .oldestFirst⟩ 0) :=
  (overCapacity_request_behaviour
    (Concurrency.Limiter.new ⟨2, 0, .oldestFirst⟩ 0)
    (FixedWindow.Limiter.new ⟨2, 100, 0, .oldestFirst, false⟩ 0)
    (TokenBucket.Limiter.new ⟨2, 1, 20, 0, .oldestFirst, false⟩ 0)
    (SlidingWindow.Limiter.new ⟨2, 100, 4, 0, .oldestFirst, false⟩ 0)
    3 3 3 3 0 (by decide) (by decide) (by decide) (by decide)).1

/-- C2 (code evaluated at the failing input): the sliding-window limiter bumps
`total_successful_leases` by the requested permit count (2) for a single
acquired lease, while the other three limiters bump their counter by exactly
one for the same decision, matching the documented meaning of the counter
("total number of successful lease acquisitions"). -/
theorem slidingWindow_counter_bumped_by_permit_count :
    ((SlidingWindow.attemptAcquire
        (SlidingWindow.Limiter.new ⟨10, 100, 4, 0, .oldestFirst, false⟩ 0)
        2 0).2).totalSuccessfulLeases = 2 ∧
    ((Concurrency.attemptAcquire
        (Concurrency.Limiter.new ⟨10, 0, .oldestFirst⟩ 0) 2).2).successfulLeases = 1 ∧
    ((FixedWindow.attemptAcquire
        (FixedWindow.Limiter.new ⟨10, 100, 0, .oldestFirst, true⟩ 0) 2 0).2).successfulLeases = 1 ∧
    ((TokenBucket.attemptAcquire
        (TokenBucket.Limiter.new ⟨10, 1, 20, 0, .oldestFirst, true⟩ 0) 2).2).successfulLeases = 1 := by
  refine ⟨rfl, rfl, ?_, ?_⟩ <;>
    norm_num [FixedWindow.attemptAcquire, FixedWindow.tryAcquireImmediate,
      FixedWindow.checkWindowExpiration, FixedWindow.createLease,
      FixedWindow.Limiter.new, TokenBucket.attemptAcquire,
      TokenBucket.tryAcquireImmediate, TokenBucket.createLease,
      TokenBucket.Limiter.new]

/-- C3 (counterexample): three deviations from the claimed `n == 0` edge.
After a fresh sliding-window limiter (capacity 2) acquires 2 permits,
`available == 0`, yet `attempt_acquire(0)` returns an acquired lease and bumps
no counter; after a fresh concurrency limiter (capacity 1, queue limit 5)
acquires its permit, the waiting form with `n == 0` queues the request instead
of failing it; and a manual fixed-window limiter whose window has elapsed
answers `attempt_acquire(0)` by mutating state (the lazy window advance resets
`available` from 0 to 10). -/
theorem zeroPermit_edge_counterexample :
    ((SlidingWindow.attemptAcquire
        ((SlidingWindow.attemptAcquire
            (SlidingWindow.Limiter.new ⟨2, 100, 4, 0, .oldestFirst, false⟩ 0) 2 0).2)
        0 0).1 = .ok RateLimitLease.success ∧
      SlidingWindow.availablePermits ⟨2, 100, 4, 0, .oldestFirst, false⟩
        ((SlidingWindow.attemptAcquire
            (SlidingWindow.Limiter.new ⟨2, 100, 4, 0, .oldestFirst, false⟩ 0) 2 0).2).state = 0 ∧
      ((SlidingWindow.attemptAcquire
          ((SlidingWindow.attemptAcquire
              (SlidingWindow.Limiter.new ⟨2, 100, 4, 0, .oldestFirst, false⟩ 0) 2 0).2)
          0 0).2).totalSuccessfulLeases
        = ((SlidingWindow.attemptAcquire
            (SlidingWindow.Limiter.new ⟨2, 100, 4, 0, .oldestFirst, false⟩ 0) 2 0).2).totalSuccessfulLeases ∧
      ((SlidingWindow.attemptAcquire
          ((SlidingWindow.attemptAcquire
              (SlidingWindow.Limiter.new ⟨2, 100, 4, 0, .oldestFirst, false⟩ 0) 2 0).2)
          0 0).2).totalFailedLeases = 0) ∧
    ((Concurrency.acquireAsyncEnqueue
        ((Concurrency.attemptAcquire
            (Concurrency.Limiter.new ⟨1, 5, .oldestFirst⟩ 0) 1).2) 0).1 = .queued ∧
      ((Concurrency.acquireAsyncEnqueue
          ((Concurrency.attemptAcquire
              (Concurrency.Limiter.new ⟨1, 5, .oldestFirst⟩ 0) 1).2) 0).2.1).state.queue
        = [{ permitCount := 0, closed := false }]) ∧
    (((FixedWindow.attemptAcquire
        ((FixedWindow.attemptAcquire
            (FixedWindow.Limiter.new ⟨10, 100, 0, .oldestFirst, false⟩ 0) 10 0).2)
        0 150).1 = .ok RateLimitLease.success) ∧
      ((FixedWindow.attemptAcquire
          (FixedWindow.Limiter.new ⟨10, 100, 0, .oldestFirst, false⟩ 0) 10 0).2).state.availablePermits = 0 ∧
      ((FixedWindow.attemptAcquire
          ((FixedWindow.attemptAcquire
              (FixedWindow.Limiter.new ⟨10, 100, 0, .oldestFirst, false⟩ 0) 10 0).2)
          0 150).2).state.availablePermits = 10) := by
  refine ⟨⟨?_, ?_, ?_, ?_⟩, ⟨?_, ?_⟩, ⟨?_, ?_, ?_⟩⟩ <;>
    norm_num [SlidingWindow.attemptAcquire, SlidingWindow.Limiter.new,
      SlidingWindow.removeExpiredSegments, SlidingWindow.availablePermits,
      SlidingWindow.recordAcquisition, SlidingWindow.calculateRetryAfter,
      Concurrency.attemptAcquire, Concurrency.tryAcquireImmediate,
      Concurrency.acquireAsyncEnqueue, Concurrency.createLease,
      Concurrency.Limiter.new, FixedWindow.attemptAcquire,
      FixedWindow.tryAcquireImmediate, FixedWindow.checkWindowExpiration,
      FixedWindow.createLease, FixedWindow.calculateRetryAfter,
      FixedWindow.Limiter.new, RateLimitLease.success, RateLimitLease.failed]

/-- C3 (amended): for the concurrency, fixed-window and token-bucket limiters
(not disposed), the non-blocking acquisition with `n == 0` returns an acquired
lease exactly when `available > 0` — counting one success and leaving the
state untouched except that the manual fixed-window limiter may first perform
its lazy window advance — and otherwise returns a failed lease (with a retry
hint on the two time-based limiters), counting one failure, never queueing.
The sliding-window limiter instead always grants `n == 0` (even when
`available == 0`) and bumps neither counter, and the waiting concurrency
acquisition with `n == 0` and `available == 0` queues the request whenever the
queue has room. -/
theorem zeroPermit_edge_behaviour
    (lc : Concurrency.Limiter) (lf : FixedWindow.Limiter)
    (lt : TokenBucket.Limiter) (lsw : SlidingWindow.Limiter) (now : ℚ)
    (hc : ¬lc.state.disposed) (hf : ¬lf.state.disposed)
    (ht : ¬lt.state.disposed) (hs : ¬lsw.state.disposed) :
    (lc.state.availablePermits > 0 →
      Concurrency.attemptAcquire lc 0
        = (.ok RateLimitLease.success,
            { lc with successfulLeases := lc.successfulLeases + 1 })) ∧
    (lc.state.availablePermits = 0 →
      Concurrency.attemptAcquire lc 0
        = (.ok (RateLimitLease.failed none),
            { lc with failedLeases := lc.failedLeases + 1 })) ∧
    (lc.state.availablePermits = 0 → lc.state.queueCount ≤ lc.config.queueLimit →
      (Concurrency.acquireAsyncEnqueue lc 0).1 = .queued) ∧
    ((FixedWindow.checkWindowExpiration lf.config lf.state now).availablePermits > 0 →
      FixedWindow.attemptAcquire lf 0 now
        = (.ok RateLimitLease.success,
            { lf with state := FixedWindow.checkWindowExpiration lf.config lf.state now
                      successfulLeases := lf.successfulLeases + 1 })) ∧
    ((FixedWindow.checkWindowExpiration lf.config lf.state now).availablePermits = 0 →
      FixedWindow.attemptAcquire lf 0 now
        = (.ok (RateLimitLease.failed (some (FixedWindow.calculateRetryAfter
              lf.config (FixedWindow.checkWindowExpiration lf.config lf.state now) 1 now))),
            { lf with state := FixedWindow.checkWindowExpiration lf.config lf.state now
                      failedLeases := lf.failedLeases + 1 })) ∧
    (lt.state.availableTokens > 0 →
      TokenBucket.attemptAcquire lt 0
        = (.ok RateLimitLease.success,
            { lt with successfulLeases := lt.successfulLeases + 1 })) ∧
    (¬lt.state.availableTokens > 0 →
      TokenBucket.attemptAcquire lt 0
        = (.ok (RateLimitLease.failed
              (some (TokenBucket.calculateRetryAfter lt.config lt.state 1))),
            { lt with failedLeases := lt.failedLeases + 1 })) ∧
    ((SlidingWindow.attemptAcquire lsw 0 now).1 = .ok RateLimitLease.success ∧
      ((SlidingWindow.attemptAcquire lsw 0 now).2).totalSuccessfulLeases
        = lsw.totalSuccessfulLeases ∧
      ((SlidingWindow.attemptAcquire lsw 0 now).2).totalFailedLeases
        = lsw.totalFailedLeases) := by
  refine ⟨?_, ?_, ?_, ?_, ?_, ?_, ?_, ?_, ?_, ?_⟩
  · intro h
    simp [Concurrency.attemptAcquire, hc, h]
  · intro h
    simp [Concurrency.attemptAcquire, hc, h]
  · intro h hq
    have hq2 : ¬lc.config.queueLimit < lc.state.queueCount := Nat.not_lt.mpr hq
    simp [Concurrency.acquireAsyncEnqueue, Concurrency.tryAcquireImmediate,
      hc, h, hq2]
  · intro h
    simp [FixedWindow.attemptAcquire, hf, h]
  · intro h
    simp [FixedWindow.attemptAcquire, hf, h]
  · intro h
    simp [TokenBucket.attemptAcquire, ht, h]
  · intro h
    simp [TokenBucket.attemptAcquire, ht, h]
  · simp [SlidingWindow.attemptAcquire, hs]
  · simp [SlidingWindow.attemptAcquire, hs]
  · simp [SlidingWindow.attemptAcquire, hs]

/-- C3 (witness): the amended theorem applied to fresh limiters (capacity 2,
all permits available), instantiating the success conjunct for the
concurrency limiter. -/
theorem zeroPermit_edge_behaviour_witness :
    Concurrency.attemptAcquire (Concurrency.Limiter.new ⟨2, 0, .oldestFirst⟩ 0) 0
      = (.ok RateLimitLease.success,
          { Concurrency.Limiter.new ⟨2, 0, .oldestFirst⟩ 0 with
              successfulLeases := 1 }) :=
  (zeroPermit_edge_behaviour
    (Concurrency.Limiter.new ⟨2, 0, .oldestFirst⟩ 0)
    (FixedWindow.Limiter.new ⟨2, 100, 0, .oldestFirst, true⟩ 0)
    (TokenBucket.Limiter.new ⟨2, 1, 20, 0, .oldestFirst, true⟩ 0)
    (SlidingWindow.Limiter.new ⟨2, 100, 4, 0, .oldestFirst, false⟩ 0)
    0 (by decide) (by decide) (by decide) (by decide)).1 (by decide)

/-- Total permits requested by a list of concurrency waiters (the documented
invariant is `queue_count == Σ waiter.requested`). -/
def Concurrency.sumPc (q : List Concurrency.QueuedRequest) : Nat :=
  (q.map Concurrency.QueuedRequest.permitCount).sum

/-- Total permits requested by a list of fixed-window waiters. -/
def FixedWindow.sumPc (q : List FixedWindow.QueuedRequest) : Nat :=
  (q.map FixedWindow.QueuedRequest.permitCount).sum

/-- Total tokens requested by a list of token-bucket waiters. -/
def TokenBucket.sumTc (q : List TokenBucket.QueuedRequest) : Nat :=
  (q.map TokenBucket.QueuedRequest.tokenCount).sum

/-- The concurrency eviction loop pops the minimal prefix of oldest waiters
that makes room for `pc` queued permits, sending each a `failed(None)` lease. -/
theorem Concurrency.concEvictLoop_spec (qlim pc : Nat) (hpc : pc ≤ qlim) :
    ∀ queue : List Concurrency.QueuedRequest,
      ∃ k ≤ queue.length,
        Concurrency.evictLoop qlim pc queue (Concurrency.sumPc queue)
          = (queue.drop k, Concurrency.sumPc (queue.drop k),
              List.replicate k (RateLimitLease.failed none)) ∧
        Concurrency.sumPc (queue.drop k) + pc ≤ qlim ∧
        ∀ j < k, Concurrency.sumPc (queue.drop j) + pc > qlim := by
  intro queue
  induction queue with
  | nil =>
    refine ⟨0, Nat.le_refl 0, ?_, ?_, ?_⟩
    · simp [Concurrency.evictLoop, Concurrency.sumPc]
    · simpa [Concurrency.sumPc] using hpc
    · intro j hj
      exact absurd hj (Nat.not_lt_zero j)
  | cons oldest rest ih =>
    by_cases hroom : Concurrency.sumPc (oldest :: rest) + pc ≤ qlim
    · refine ⟨0, Nat.zero_le _, ?_, ?_, ?_⟩
      · simp [Concurrency.evictLoop, hroom]
      · simpa using hroom
      · intro j hj
        exact absurd hj (Nat.not_lt_zero j)
    · obtain ⟨k, hk, heq, hstop, hmin⟩ := ih
      refine ⟨k + 1, Nat.succ_le_succ hk, ?_, ?_, ?_⟩
      · have hsub : Concurrency.sumPc (oldest :: rest) - oldest.permitCount
            = Concurrency.sumPc rest := by
          simp [Concurrency.sumPc]
        simp only [Concurrency.evictLoop, if_neg hroom, hsub, heq,
          List.drop_succ_cons, List.replicate_succ]
      · simpa [List.drop_succ_cons] using hstop
      · intro j hj
        match j with
        | 0 => simpa using Nat.gt_of_not_le hroom
        | j + 1 =>
          have := hmin j (Nat.lt_of_succ_lt_succ hj)
          simpa [List.drop_succ_cons] using this

/-- The fixed-window eviction loop pops the minimal prefix of oldest waiters
that makes room for `pc` queued permits; every notified lease is failed. -/
theorem FixedWindow.fwEvictLoop_spec (cfg : FixedWindow.Options)
    (stAvail : Nat) (stWindowStart now : ℚ) (pc : Nat)
    (hpc : pc ≤ cfg.queueLimit) :
    ∀ queue : List FixedWindow.QueuedRequest,
      ∃ k, ∃ sent : List RateLimitLease, k ≤ queue.length ∧
        FixedWindow.evictLoop cfg stAvail stWindowStart now pc queue
            (FixedWindow.sumPc queue)
          = (queue.drop k, FixedWindow.sumPc (queue.drop k), sent) ∧
        sent.length = k ∧
        (∀ lease ∈ sent, lease.isAcquired = false) ∧
        FixedWindow.sumPc (queue.drop k) + pc ≤ cfg.queueLimit ∧
        ∀ j < k, FixedWindow.sumPc (queue.drop j) + pc > cfg.queueLimit := by
  intro queue
  induction queue with
  | nil =>
    refine ⟨0, [], Nat.le_refl 0, ?_, rfl, ?_, ?_, ?_⟩
    · simp [FixedWindow.evictLoop, FixedWindow.sumPc]
    · intro lease hlease
      exact absurd hlease (List.not_mem_nil lease)
    · simpa [FixedWindow.sumPc] using hpc
    · intro j hj
      exact absurd hj (Nat.not_lt_zero j)
  | cons oldest rest ih =>
    by_cases hroom : FixedWindow.sumPc (oldest :: rest) + pc ≤ cfg.queueLimit
    · refine ⟨0, [], Nat.zero_le _, ?_, rfl, ?_, ?_, ?_⟩
      · simp [FixedWindow.evictLoop, hroom]
      · intro lease hlease
        exact absurd hlease (List.not_mem_nil lease)
      · simpa using hroom
      · intro j hj
        exact absurd hj (Nat.not_lt_zero j)
    · obtain ⟨k, sent, hk, heq, hlen, hfailed, hstop, hmin⟩ := ih
      have hsub : FixedWindow.sumPc (oldest :: rest) - oldest.permitCount
          = FixedWindow.sumPc rest := by
        simp [FixedWindow.sumPc]
      refine ⟨k + 1,
        RateLimitLease.failed (some (FixedWindow.calculateRetryAfter cfg
          { availablePermits := stAvail, windowStart := stWindowStart,
            queue := [], queueCount := 0, idleSince := none, disposed := false }
          oldest.permitCount now)) :: sent,
        Nat.succ_le_succ hk, ?_, ?_, ?_, ?_, ?_⟩
      · simp only [FixedWindow.evictLoop, if_neg hroom, hsub, heq,
          List.drop_succ_cons]
      · simp [hlen]
      · intro lease hlease
        rcases List.mem_cons.mp hlease with h | h
        · simp [h, RateLimitLease.failed]
        · exact hfailed lease h
      · simpa [List.drop_succ_cons] using hstop
      · intro j hj
        match j with
        | 0 => simpa using Nat.gt_of_not_le hroom
        | j + 1 =>
          have := hmin j (Nat.lt_of_succ_lt_succ hj)
          simpa [List.drop_succ_cons] using this

/-- The token-bucket eviction loop pops the minimal prefix of oldest waiters
that makes room for `tc` queued tokens; every notified lease is failed. -/
theorem TokenBucket.tbEvictLoop_spec (cfg : TokenBucket.Options)
    (stAvail : ℚ) (tc : Nat) (htc : tc ≤ cfg.queueLimit) :
    ∀ queue : List TokenBucket.QueuedRequest,
      ∃ k, ∃ sent : List RateLimitLease, k ≤ queue.length ∧
        TokenBucket.evictLoop cfg stAvail tc queue (TokenBucket.sumTc queue)
          = (queue.drop k, TokenBucket.sumTc (queue.drop k), sent) ∧
        sent.length = k ∧
        (∀ lease ∈ sent, lease.isAcquired = false) ∧
        TokenBucket.sumTc (queue.drop k) + tc ≤ cfg.queueLimit ∧
        ∀ j < k, TokenBucket.sumTc (queue.drop j) + tc > cfg.queueLimit := by
  intro queue
  induction queue with
  | nil =>
    refine ⟨0, [], Nat.le_refl 0, ?_, rfl, ?_, ?_, ?_⟩
    · simp [TokenBucket.evictLoop, TokenBucket.sumTc]
    · intro lease hlease
      exact absurd hlease (List.not_mem_nil lease)
    · simpa [TokenBucket.sumTc] using htc
    · intro j hj
      exact absurd hj (Nat.not_lt_zero j)
  | cons oldest rest ih =>
    by_cases hroom : TokenBucket.sumTc (oldest :: rest) + tc ≤ cfg.queueLimit
    · refine ⟨0, [], Nat.zero_le _, ?_, rfl, ?_, ?_, ?_⟩
      · simp [TokenBucket.evictLoop, hroom]
      · intro lease hlease
        exact absurd hlease (List.not_mem_nil lease)
      · simpa using hroom
      · intro j hj
        exact absurd hj (Nat.not_lt_zero j)
    · obtain ⟨k, sent, hk, heq, hlen, hfailed, hstop, hmin⟩ := ih
      have hsub : TokenBucket.sumTc (oldest :: rest) - oldest.tokenCount
          = TokenBucket.sumTc rest := by
        simp [TokenBucket.sumTc]
      refine ⟨k + 1,
        RateLimitLease.failed (some (TokenBucket.calculateRetryAfter cfg
          { availableTokens := stAvail, queue := [],
            queueCount := TokenBucket.sumTc rest, lastReplenishment := 0,
            idleSince := none, disposed := false }
          oldest.tokenCount)) :: sent,
        Nat.succ_le_succ hk, ?_, ?_, ?_, ?_, ?_⟩
      · simp only [TokenBucket.evictLoop, if_neg hroom, hsub, heq,
          List.drop_succ_cons]
      · simp [hlen]
      · intro lease hlease
        rcases List.mem_cons.mp hlease with h | h
        · simp [h, RateLimitLease.failed]
        · exact hfailed lease h
      · simpa [List.drop_succ_cons] using hstop
      · intro j hj
        match j with
        | 0 => simpa using Nat.gt_of_not_le hroom
        | j + 1 =>
          have := hmin j (Nat.lt_of_succ_lt_succ hj)
          simpa [List.drop_succ_cons] using this

/-- C4 (counterexample): the claim promises NewestFirst eviction for every
limiter, but the sliding-window limiter never evicts.  With
`permit_limit = 1`, `queue_limit = 1`, `NewestFirst`: after acquiring the only
permit and queueing one waiter, a further waiting request for 1 permit (which
satisfies `n ≤ queue_limit`, so the claim demands eviction of the oldest
waiter followed by queueing) is instead failed immediately, and the old waiter
stays queued. -/
theorem slidingWindow_newestFirst_never_evicts :
    (SlidingWindow.tryAcquireOrQueue
        ((SlidingWindow.tryAcquireOrQueue
            ((SlidingWindow.tryAcquireOrQueue
                (SlidingWindow.Limiter.new ⟨1, 100, 4, 1, .newestFirst, false⟩ 0)
                1 0).2)
            1 0).2)
        1 0).1
      = .immediate (RateLimitLease.failed (some 100)) ∧
    ((SlidingWindow.tryAcquireOrQueue
        ((SlidingWindow.tryAcquireOrQueue
            ((SlidingWindow.tryAcquireOrQueue
                (SlidingWindow.Limiter.new ⟨1, 100, 4, 1, .newestFirst, false⟩ 0)
                1 0).2)
            1 0).2)
        1 0).2).state.queue
      = [{ permitsRequested := 1, queuedAt := 0 }] := by
  constructor <;>
    norm_num [SlidingWindow.tryAcquireOrQueue, SlidingWindow.Limiter.new,
      SlidingWindow.removeExpiredSegments, SlidingWindow.availablePermits,
      SlidingWindow.recordAcquisition, SlidingWindow.calculateRetryAfter,
      RateLimitLease.failed, RateLimitLease.success]

/-- C4 (amended): when a waiting acquisition cannot fast-path, the
concurrency, fixed-window and token-bucket limiters follow the claimed queue
policy: append when `queue_count + n ≤ queue_limit`; otherwise under
`NewestFirst` with `n ≤ queue_limit` evict the minimal prefix of oldest
waiters (each receiving a failed lease and bumping `total_failed`) until
`queue_count + n ≤ queue_limit` and then append; otherwise fail the caller
immediately.  The sliding-window limiter only implements the first and last
arms: when its queue lacks room it fails the caller immediately regardless of
the configured order, never evicting. -/
theorem slowPath_queue_policy
    (lc : Concurrency.Limiter) (lf : FixedWindow.Limiter)
    (lt : TokenBucket.Limiter) (lsw : SlidingWindow.Limiter)
    (pc₁ pc₂ pc₃ pc₄ : Nat) (now : ℚ)
    (hc_cap : pc₁ ≤ lc.config.permitLimit) (hc_d : ¬lc.state.disposed)
    (hc_imm : Concurrency.tryAcquireImmediate lc pc₁ false = (none, lc))
    (hc_sum : lc.state.queueCount = Concurrency.sumPc lc.state.queue)
    (hf_cap : pc₂ ≤ lf.config.permitLimit) (hf_d : ¬lf.state.disposed)
    (hf_imm : FixedWindow.tryAcquireImmediate lf pc₂ now = (none, lf))
    (hf_sum : lf.state.queueCount = FixedWindow.sumPc lf.state.queue)
    (ht_cap : pc₃ ≤ lt.config.tokenLimit) (ht_d : ¬lt.state.disposed)
    (ht_imm : TokenBucket.tryAcquireImmediate lt pc₃ = (none, lt))
    (ht_sum : lt.state.queueCount = TokenBucket.sumTc lt.state.queue)
    (hs_cap : pc₄ ≤ lsw.config.permitLimit) (hs_d : ¬lsw.state.disposed)
    (hs_avail : SlidingWindow.availablePermits lsw.config
      { lsw.state with segments :=
          SlidingWindow.removeExpiredSegments now lsw.state.segments } < pc₄) :
    (lc.state.queueCount + pc₁ ≤ lc.config.queueLimit →
      Concurrency.acquireAsyncEnqueue lc pc₁
        = (.queued, { lc with state := { lc.state with
              queue := lc.state.queue ++ [{ permitCount := pc₁ }]
              queueCount := lc.state.queueCount + pc₁ } }, [])) ∧
    (lc.state.queueCount + pc₁ > lc.config.queueLimit →
      lc.config.order = .newestFirst → pc₁ ≤ lc.config.queueLimit →
      ∃ k ≤ lc.state.queue.length,
        (Concurrency.acquireAsyncEnqueue lc pc₁).1 = .queued ∧
        (Concurrency.acquireAsyncEnqueue lc pc₁).2.1.state.queue
          = lc.state.queue.drop k ++ [{ permitCount := pc₁ }] ∧
        (Concurrency.acquireAsyncEnqueue lc pc₁).2.1.state.queueCount
          = Concurrency.sumPc (lc.state.queue.drop k) + pc₁ ∧
        (Concurrency.acquireAsyncEnqueue lc pc₁).2.1.failedLeases
          = lc.failedLeases + k ∧
        (Concurrency.acquireAsyncEnqueue lc pc₁).2.2
          = List.replicate k (RateLimitLease.failed none) ∧
        Concurrency.sumPc (lc.state.queue.drop k) + pc₁ ≤ lc.config.queueLimit ∧
        ∀ j < k, Concurrency.sumPc (lc.state.queue.drop j) + pc₁
          > lc.config.queueLimit) ∧
    (lc.state.queueCount + pc₁ > lc.config.queueLimit →
      ¬(lc.config.order = .newestFirst ∧ pc₁ ≤ lc.config.queueLimit) →
      Concurrency.acquireAsyncEnqueue lc pc₁
        = (.lease (RateLimitLease.failed none),
            { lc with failedLeases := lc.failedLeases + 1 }, [])) ∧
    (lf.state.queueCount + pc₂ ≤ lf.config.queueLimit →
      FixedWindow.acquireAsyncEnqueue lf pc₂ now
        = (.queued, { lf with state := { lf.state with
              queue := lf.state.queue ++ [{ permitCount := pc₂ }]
              queueCount := lf.state.queueCount + pc₂ } }, [])) ∧
    (lf.state.queueCount + pc₂ > lf.config.queueLimit →
      lf.config.order = .newestFirst → pc₂ ≤ lf.config.queueLimit →
      ∃ k ≤ lf.state.queue.length,
        (FixedWindow.acquireAsyncEnqueue lf pc₂ now).1 = .queued ∧
        (FixedWindow.acquireAsyncEnqueue lf pc₂ now).2.1.state.queue
          = lf.state.queue.drop k ++ [{ permitCount := pc₂ }] ∧
        (FixedWindow.acquireAsyncEnqueue lf pc₂ now).2.1.state.queueCount
          = FixedWindow.sumPc (lf.state.queue.drop k) + pc₂ ∧
        (FixedWindow.acquireAsyncEnqueue lf pc₂ now).2.1.failedLeases
          = lf.failedLeases + k ∧
        (FixedWindow.acquireAsyncEnqueue lf pc₂ now).2.2.length = k ∧
        (∀ lease ∈ (FixedWindow.acquireAsyncEnqueue lf pc₂ now).2.2,
          lease.isAcquired = false) ∧
        FixedWindow.sumPc (lf.state.queue.drop k) + pc₂ ≤ lf.config.queueLimit ∧
        ∀ j < k, FixedWindow.sumPc (lf.state.queue.drop j) + pc₂
          > lf.config.queueLimit) ∧
    (lf.state.queueCount + pc₂ > lf.config.queueLimit →
      ¬(lf.config.order = .newestFirst ∧ pc₂ ≤ lf.config.queueLimit) →
      FixedWindow.acquireAsyncEnqueue lf pc₂ now
        = (.lease (RateLimitLease.failed
              (some (FixedWindow.calculateRetryAfter lf.config lf.state pc₂ now))),
            { lf with failedLeases := lf.failedLeases + 1 }, [])) ∧
    (lt.state.queueCount + pc₃ ≤ lt.config.queueLimit →
      TokenBucket.acquireAsyncEnqueue lt pc₃
        = (.queued, { lt with state := { lt.state with
              queue := lt.state.queue ++ [{ tokenCount := pc₃ }]
              queueCount := lt.state.queueCount + pc₃ } }, [])) ∧
    (lt.state.queueCount + pc₃ > lt.config.queueLimit →
      lt.config.order = .newestFirst → pc₃ ≤ lt.config.queueLimit →
      ∃ k ≤ lt.state.queue.length,
        (TokenBucket.acquireAsyncEnqueue lt pc₃).1 = .queued ∧
        (TokenBucket.acquireAsyncEnqueue lt pc₃).2.1.state.queue
          = lt.state.queue.drop k ++ [{ tokenCount := pc₃ }] ∧
        (TokenBucket.acquireAsyncEnqueue lt pc₃).2.1.state.queueCount
          = TokenBucket.sumTc (lt.state.queue.drop k) + pc₃ ∧
        (TokenBucket.acquireAsyncEnqueue lt pc₃).2.1.failedLeases
          = lt.failedLeases + k ∧
        (TokenBucket.acquireAsyncEnqueue lt pc₃).2.2.length = k ∧
        (∀ lease ∈ (TokenBucket.acquireAsyncEnqueue lt pc₃).2.2,
          lease.isAcquired = false) ∧
        TokenBucket.sumTc (lt.state.queue.drop k) + pc₃ ≤ lt.config.queueLimit ∧
        ∀ j < k, TokenBucket.sumTc (lt.state.queue.drop j) + pc₃
          > lt.config.queueLimit) ∧
    (lt.state.queueCount + pc₃ > lt.config.queueLimit →
      ¬(lt.config.order = .newestFirst ∧ pc₃ ≤ lt.config.queueLimit) →
      TokenBucket.acquireAsyncEnqueue lt pc₃
        = (.lease (RateLimitLease.failed
              (some (TokenBucket.calculateRetryAfter lt.config lt.state pc₃))),
            { lt with failedLeases := lt.failedLeases + 1 }, [])) ∧
    (lsw.state.queueCount + pc₄ ≤ lsw.config.queueLimit →
      (SlidingWindow.tryAcquireOrQueue lsw pc₄ now).1 = .queued ∧
      (SlidingWindow.tryAcquireOrQueue lsw pc₄ now).2.state.queue
        = lsw.state.queue ++ [{ permitsRequested := pc₄, queuedAt := now }] ∧
      (SlidingWindow.tryAcquireOrQueue lsw pc₄ now).2.state.queueCount
        = lsw.state.queueCount + pc₄) ∧
    (lsw.state.queueCount + pc₄ > lsw.config.queueLimit →
      (SlidingWindow.tryAcquireOrQueue lsw pc₄ now).1
        = .immediate (RateLimitLease.failed (some (SlidingWindow.calculateRetryAfter
            now { lsw.state with segments :=
              SlidingWindow.removeExpiredSegments now lsw.state.segments }))) ∧
      (SlidingWindow.tryAcquireOrQueue lsw pc₄ now).2.state.queue
        = lsw.state.queue) := by
  have hnc : ¬pc₁ > lc.config.permitLimit := Nat.not_lt.mpr hc_cap
  have hnf : ¬pc₂ > lf.config.permitLimit := Nat.not_lt.mpr hf_cap
  have hnt : ¬pc₃ > lt.config.tokenLimit := Nat.not_lt.mpr ht_cap
  have hns : ¬pc₄ > lsw.config.permitLimit := Nat.not_lt.mpr hs_cap
  have hsav : ¬SlidingWindow.availablePermits lsw.config
      { lsw.state with segments :=
          SlidingWindow.removeExpiredSegments now lsw.state.segments } ≥ pc₄ :=
    Nat.not_le.mpr hs_avail
  refine ⟨?_, ?_, ?_, ?_, ?_, ?_, ?_, ?_, ?_, ?_, ?_⟩
  · intro hroom
    simp [Concurrency.acquireAsyncEnqueue, hnc, hc_d, hc_imm,
      Nat.not_lt.mpr hroom]
  · intro hover horder hfits
    obtain ⟨k, hk, heq, hstop, hmin⟩ :=
      Concurrency.concEvictLoop_spec lc.config.queueLimit pc₁ hfits lc.state.queue
    have hover2 : lc.config.queueLimit < Concurrency.sumPc lc.state.queue + pc₁ := by
      rw [← hc_sum]; exact hover
    refine ⟨k, hk, ?_, ?_, ?_, ?_, ?_, hstop, hmin⟩ <;>
      simp [Concurrency.acquireAsyncEnqueue, hnc, hc_d, hc_imm, hover, horder,
        hfits, hc_sum, heq, hover2]
  · intro hover hnot
    simp only [Concurrency.acquireAsyncEnqueue, if_neg hnc, Bool.not_eq_true] at *
    simp [Concurrency.acquireAsyncEnqueue, hnc, hc_d, hc_imm, hover, hnot]
  · intro hroom
    simp [FixedWindow.acquireAsyncEnqueue, hnf, hf_d, hf_imm,
      Nat.not_lt.mpr hroom]
  · intro hover horder hfits
    obtain ⟨k, sent, hk, heq, hlen, hfailed, hstop, hmin⟩ :=
      FixedWindow.fwEvictLoop_spec lf.config lf.state.availablePermits
        lf.state.windowStart now pc₂ hfits lf.state.queue
    have hover2 : lf.config.queueLimit < FixedWindow.sumPc lf.state.queue + pc₂ := by
      rw [← hf_sum]; exact hover
    refine ⟨k, hk, ?_, ?_, ?_, ?_, ?_, ?_, hstop, hmin⟩ <;>
      simp [FixedWindow.acquireAsyncEnqueue, hnf, hf_d, hf_imm, hover, horder,
        hfits, hf_sum, heq, hlen, hover2]
    exact hfailed
  · intro hover hnot
    simp [FixedWindow.acquireAsyncEnqueue, hnf, hf_d, hf_imm, hover, hnot]
  · intro hroom
    simp [TokenBucket.acquireAsyncEnqueue, hnt, ht_d, ht_imm,
      Nat.not_lt.mpr hroom]
  · intro hover horder hfits
    obtain ⟨k, sent, hk, heq, hlen, hfailed, hstop, hmin⟩ :=
      TokenBucket.tbEvictLoop_spec lt.config lt.state.availableTokens pc₃ hfits
        lt.state.queue
    have hover2 : lt.config.queueLimit < TokenBucket.sumTc lt.state.queue + pc₃ := by
      rw [← ht_sum]; exact hover
    refine ⟨k, hk, ?_, ?_, ?_, ?_, ?_, ?_, hstop, hmin⟩ <;>
      simp [TokenBucket.acquireAsyncEnqueue, hnt, ht_d, ht_imm, hover, horder,
        hfits, ht_sum, heq, hlen, hover2]
    exact hfailed
  · intro hover hnot
    simp [TokenBucket.acquireAsyncEnqueue, hnt, ht_d, ht_imm, hover, hnot]
  · intro hroom
    have hsav2 : ¬pc₄ ≤ SlidingWindow.availablePermits lsw.config
        { segments := SlidingWindow.removeExpiredSegments now lsw.state.segments
          queue := lsw.state.queue, queueCount := lsw.state.queueCount
          idleSince := lsw.state.idleSince, disposed := false } := hsav
    refine ⟨?_, ?_, ?_⟩ <;>
      simp [SlidingWindow.tryAcquireOrQueue, hns, hs_d, hsav, hsav2, hroom]
  · intro hover
    have hsav2 : ¬pc₄ ≤ SlidingWindow.availablePermits lsw.config
        { segments := SlidingWindow.removeExpiredSegments now lsw.state.segments
          queue := lsw.state.queue, queueCount := lsw.state.queueCount
          idleSince := lsw.state.idleSince, disposed := false } := hsav
    constructor <;>
      simp [SlidingWindow.tryAcquireOrQueue, hns, hs_d, hsav, hsav2,
        Nat.not_le.mpr hover]

/-- C4 (witness): the amended theorem applied to a concurrency limiter
(`permit_limit = 1`, `queue_limit = 2`, NewestFirst) holding no free permits
with one queued waiter: a waiting request for 1 more permit is appended. -/
theorem slowPath_queue_policy_witness :
    Concurrency.acquireAsyncEnqueue
        { config := ⟨1, 2, .newestFirst⟩
          state := { availablePermits := 0, queue := [{ permitCount := 1 }]
                     queueCount := 1, idleSince := none, disposed := false }
          successfulLeases := 0, failedLeases := 0 } 1
      = (.queued,
          { config := ⟨1, 2, .newestFirst⟩
            state := { availablePermits := 0
                       queue := [{ permitCount := 1 }, { permitCount := 1 }]
                       queueCount := 2, idleSince := none, disposed := false }
            successfulLeases := 0, failedLeases := 0 }, []) := by
  simpa using
    (slowPath_queue_policy
      { config := ⟨1, 2, .newestFirst⟩
        state := { availablePermits := 0, queue := [{ permitCount := 1 }]
                   queueCount := 1, idleSince := none, disposed := false }
        successfulLeases := 0, failedLeases := 0 }
      { config := ⟨1, 100, 2, .oldestFirst, true⟩
        state := { availablePermits := 0, windowStart := 0
                   queue := [{ permitCount := 1 }], queueCount := 1
                   idleSince := none, disposed := false }
        successfulLeases := 0, failedLeases := 0 }
      { config := ⟨1, 1, 20, 2, .oldestFirst, true⟩
        state := { availableTokens := 0, queue := [{ tokenCount := 1 }]
                   queueCount := 1, lastReplenishment := 0
                   idleSince := none, disposed := false }
        successfulLeases := 0, failedLeases := 0 }
      { config := ⟨1, 100, 4, 1, .oldestFirst, false⟩
        state := { segments := [{ expiresAt := 100, count := 1 }], queue := []
                   queueCount := 0, idleSince := none, disposed := false }
        totalSuccessfulLeases := 0, totalFailedLeases := 0
        processingScheduled := false }
      1 1 1 1 0 (by decide) (by decide) (by decide) (by decide)
      (by decide) (by decide) (by decide) (by decide)
      (by decide) (by decide) (by decide) (by decide)
      (by decide) (by decide) (by decide)).1 (by decide)

/-- C5 (counterexample): releasing an acquired concurrency lease does not in
general restore `available` to its pre-acquisition value, because the drain
triggered by the release may immediately re-grant permits to queued waiters.
With `permit_limit = 2`, `queue_limit = 5`, NewestFirst, `available = 2` and
one queued waiter for 1 permit (reachable when a synchronous release has
updated the state but its wake-up message is still in the channel):
`attempt_acquire(2)` succeeds, and firing the lease's release hook (through
either path) leaves `available = 1`, not 2. -/
theorem concurrency_release_can_regrant_waiter :
    (Concurrency.attemptAcquire
        { config := ⟨2, 5, .newestFirst⟩
          state := { availablePermits := 2, queue := [{ permitCount := 1 }]
                     queueCount := 1, idleSince := none, disposed := false }
          successfulLeases := 0, failedLeases := 0 } 2).1
      = .ok (RateLimitLease.successWithConcCleanup 2 true) ∧
    ((Concurrency.releaseFull
        (Concurrency.attemptAcquire
          { config := ⟨2, 5, .newestFirst⟩
            state := { availablePermits := 2, queue := [{ permitCount := 1 }]
                       queueCount := 1, idleSince := none, disposed := false }
            successfulLeases := 0, failedLeases := 0 } 2).2
        2 true 0).1).state.availablePermits = 1 ∧
    ((Concurrency.releaseFull
        (Concurrency.attemptAcquire
          { config := ⟨2, 5, .newestFirst⟩
            state := { availablePermits := 2, queue := [{ permitCount := 1 }]
                       queueCount := 1, idleSince := none, disposed := false }
            successfulLeases := 0, failedLeases := 0 } 2).2
        2 false 0).1).state.availablePermits = 1 := by
  refine ⟨rfl, rfl, rfl⟩

/-- C5 (amended): for a non-disposed concurrency limiter with an empty queue,
acquiring `0 < n ≤ permit_limit ≤ available` permits through the fast path and
then firing the returned lease's release hook exactly once — through either
the synchronous direct-update path or the queue-processor channel path —
restores `available` to its value before the acquisition.  (With waiters
queued, the drain run by the release may immediately re-grant permits, so
`available` can end lower; see the counterexample.) -/
theorem concurrency_release_roundtrip
    (l : Concurrency.Limiter) (n : Nat) (now : ℚ)
    (hd : ¬l.state.disposed) (hn : 0 < n) (hcap : n ≤ l.config.permitLimit)
    (hav : n ≤ l.state.availablePermits) (hq : l.state.queue = []) :
    (Concurrency.attemptAcquire l n).1
      = .ok (RateLimitLease.successWithConcCleanup n true) ∧
    ((Concurrency.releaseFull (Concurrency.attemptAcquire l n).2 n true now).1).state.availablePermits
      = l.state.availablePermits ∧
    ((Concurrency.releaseFull (Concurrency.attemptAcquire l n).2 n false now).1).state.availablePermits
      = l.state.availablePermits := by
  have hn0 : ¬n = 0 := Nat.pos_iff_ne_zero.mp hn
  have hnc : ¬n > l.config.permitLimit := Nat.not_lt.mpr hcap
  refine ⟨?_, ?_, ?_⟩ <;>
    simp [Concurrency.attemptAcquire, Concurrency.tryAcquireImmediate,
      Concurrency.createLease, Concurrency.releaseFull,
      Concurrency.releaseSyncDirect, Concurrency.queueProcessorStep,
      Concurrency.processQueueInternal, Concurrency.processQueueAux,
      RateLimitLease.successWithConcCleanup, hd, hn, hn0, hnc, hav, hq]

/-- C5 (witness): the amended theorem applied to a fresh limiter with
`permit_limit = 2` acquiring and releasing 2 permits. -/
theorem concurrency_release_roundtrip_witness :
    ((Concurrency.releaseFull
        (Concurrency.attemptAcquire
          (Concurrency.Limiter.new ⟨2, 0, .oldestFirst⟩ 0) 2).2 2 true 7).1).state.availablePermits
      = 2 :=
  (concurrency_release_roundtrip (Concurrency.Limiter.new ⟨2, 0, .oldestFirst⟩ 0)
    2 7 (by decide) (by decide) (by decide) (by decide) (by decide)).2.1

/-- C6 (counterexample): the claim says a manual-mode `try_replenish()`
triggers a replenishment and returns `true`.  For the sliding-window limiter
it returns whether any queued waiter was granted: on a manual limiter with an
expired segment and an empty queue, `try_replenish` performs the
segment-expiry drain (the segment disappears) yet returns `false`. -/
theorem slidingWindow_manual_tryReplenish_returns_false :
    (SlidingWindow.tryReplenish
        { config := ⟨2, 100, 4, 0, .oldestFirst, false⟩
          state := { segments := [{ expiresAt := 50, count := 1 }], queue := []
                     queueCount := 0, idleSince := none, disposed := false }
          totalSuccessfulLeases := 0, totalFailedLeases := 0
          processingScheduled := false } 60).1 = false ∧
    ((SlidingWindow.tryReplenish
        { config := ⟨2, 100, 4, 0, .oldestFirst, false⟩
          state := { segments := [{ expiresAt := 50, count := 1 }], queue := []
                     queueCount := 0, idleSince := none, disposed := false }
          totalSuccessfulLeases := 0, totalFailedLeases := 0
          processingScheduled := false } 60).2.1).state.segments = [] := by
  constructor <;> rfl

/-- C6 (amended): for the fixed-window and token-bucket limiters the claim
holds: with `auto_replenishment = true`, `try_replenish()` returns `false` and
changes nothing; with `auto_replenishment = false` (not disposed; empty queue
shown here so the drain is a no-op) it performs the replenishment — the window
advances to a full `permit_limit` at `now`, the bucket gains
`tokens_per_period` (capped at `token_limit`) — and returns `true`.  The
sliding-window limiter returns `false` in auto mode and leaves the state
unchanged, but in manual mode it returns whether any queued waiter was
granted, so on an empty queue it returns `false` even though the
segment-expiry drain runs. -/
theorem tryReplenish_behaviour
    (lf lf2 : FixedWindow.Limiter) (lt lt2 : TokenBucket.Limiter)
    (lsw lsw2 : SlidingWindow.Limiter) (now : ℚ)
    (hfa : lf.config.autoReplenishment = true)
    (hf2a : lf2.config.autoReplenishment = false)
    (hf2d : ¬lf2.state.disposed) (hf2q : lf2.state.queue = [])
    (hta : lt.config.autoReplenishment = true)
    (ht2a : lt2.config.autoReplenishment = false)
    (ht2d : ¬lt2.state.disposed) (ht2q : lt2.state.queue = [])
    (ht2p : 0 < lt2.config.tokensPerPeriod)
    (hsa : lsw.config.autoReplenishment = true)
    (hs2a : lsw2.config.autoReplenishment = false)
    (hs2d : ¬lsw2.state.disposed) (hs2q : lsw2.state.queue = [])
    (hs2f : ¬lsw2.processingScheduled) :
    FixedWindow.tryReplenish lf now = (false, lf, []) ∧
    ((FixedWindow.tryReplenish lf2 now).1 = true ∧
      ((FixedWindow.tryReplenish lf2 now).2.1).state.availablePermits
        = lf2.config.permitLimit ∧
      ((FixedWindow.tryReplenish lf2 now).2.1).state.windowStart = now) ∧
    TokenBucket.tryReplenish lt now = (false, lt, []) ∧
    ((TokenBucket.tryReplenish lt2 now).1 = true ∧
      ((TokenBucket.tryReplenish lt2 now).2.1).state.availableTokens
        = min (lt2.state.availableTokens + (lt2.config.tokensPerPeriod : ℚ))
            (lt2.config.tokenLimit : ℚ) ∧
      ((TokenBucket.tryReplenish lt2 now).2.1).state.lastReplenishment = now) ∧
    SlidingWindow.tryReplenish lsw now = (false, lsw, []) ∧
    (SlidingWindow.tryReplenish lsw2 now).1 = false := by
  have htq : (0 : ℚ) < (lt2.config.tokensPerPeriod : ℚ) := by
    exact_mod_cast ht2p
  refine ⟨?_, ⟨?_, ?_, ?_⟩, ?_, ⟨?_, ?_, ?_⟩, ?_, ?_⟩ <;>
    simp [FixedWindow.tryReplenish, FixedWindow.replenish,
      FixedWindow.processQueueInternal, FixedWindow.processQueueAux,
      TokenBucket.tryReplenish, TokenBucket.replenish,
      TokenBucket.processQueueInternal, TokenBucket.processQueueAux,
      SlidingWindow.tryReplenish, SlidingWindow.replenishCore,
      SlidingWindow.processQueue, SlidingWindow.processQueueFirstPass,
      SlidingWindow.processQueueSecondPass, SlidingWindow.sortDescFst,
      hfa, hf2a, hf2d, hf2q, hta, ht2a, ht2d, ht2q, htq,
      hsa, hs2a, hs2d, hs2q, hs2f]
  cases lsw2.config.order <;> simp [SlidingWindow.processQueueFirstPass]

/-- C6 (witness): the amended theorem applied to fresh limiters; a manual
fixed-window limiter with no free permits regains `permit_limit = 5` after
`try_replenish`. -/
theorem tryReplenish_behaviour_witness :
    ((FixedWindow.tryReplenish
        { config := ⟨5, 100, 0, .oldestFirst, false⟩
          state := { availablePermits := 0, windowStart := 0, queue := []
                     queueCount := 0, idleSince := none, disposed := false }
          successfulLeases := 0, failedLeases := 0 } 150).2.1).state.availablePermits
      = 5 :=
  (tryReplenish_behaviour
    (FixedWindow.Limiter.new ⟨5, 100, 0, .oldestFirst, true⟩ 0)
    { config := ⟨5, 100, 0, .oldestFirst, false⟩
      state := { availablePermits := 0, windowStart := 0, queue := []
                 queueCount := 0, idleSince := none, disposed := false }
      successfulLeases := 0, failedLeases := 0 }
    (TokenBucket.Limiter.new ⟨5, 1, 20, 0, .oldestFirst, true⟩ 0)
    (TokenBucket.Limiter.new ⟨5, 1, 20, 0, .oldestFirst, false⟩ 0)
    (SlidingWindow.Limiter.new ⟨5, 100, 4, 0, .oldestFirst, true⟩ 0)
    (SlidingWindow.Limiter.new ⟨5, 100, 4, 0, .oldestFirst, false⟩ 0)
    150 (by decide) (by decide) (by decide) (by decide) (by decide) (by decide)
    (by decide) (by decide) (by decide) (by decide) (by decide) (by decide)
    (by decide) (by decide)).2.1.2.1

/-- C7 (counterexample): the code clamps the shortfall `n − available` at zero
before adding the queued tokens; the claimed formula does not.  Manual token
bucket, `token_limit = 10`, `tokens_per_period = 1`, `period = 20`,
`queue_limit = 10`: acquire 10, queue a waiter for 10, replenish twice
(`available = 2`, `queue_count = 10`), then `attempt_acquire(1)` fails with
`RetryAfter = 20 × ceil((0 + 10)/1) = 200`, while the claimed
`20 × max(ceil((1 − 2 + 10)/1), 1)` is `180`. -/
theorem tokenBucket_retryHint_shortfall_is_clamped :
    (TokenBucket.attemptAcquire
        ((TokenBucket.tryReplenish
            ((TokenBucket.tryReplenish
                ((TokenBucket.acquireAsyncEnqueue
                    ((TokenBucket.attemptAcquire
                        (TokenBucket.Limiter.new
                          ⟨10, 1, 20, 10, .oldestFirst, false⟩ 0) 10).2)
                    10).2.1)
                20).2.1)
            40).2.1)
        1).1
      = .ok (RateLimitLease.failed (some 200)) ∧
    (20 : ℚ) * (max (((1 : ℚ) - 2 + 10) / 1).ceil.toNat 1 : Nat) = 180 ∧
    (200 : ℚ) ≠ 180 := by
  have hoo : QueueProcessingOrder.oldestFirst ≠ QueueProcessingOrder.newestFirst := by
    decide
  refine ⟨?_, ?_, ?_⟩ <;>
    norm_num [TokenBucket.attemptAcquire, TokenBucket.tryAcquireImmediate,
      TokenBucket.acquireAsyncEnqueue, TokenBucket.tryReplenish,
      TokenBucket.replenish, TokenBucket.processQueueInternal,
      TokenBucket.processQueueAux, TokenBucket.nextOf, TokenBucket.popOf,
      TokenBucket.calculateRetryAfter, TokenBucket.createLease,
      TokenBucket.Limiter.new, RateLimitLease.failed, RateLimitLease.success,
      Rat.ceil, Int.toNat, hoo]

/-- C7 (amended): every failed token-bucket acquisition requesting `n > 0`
carries the retry hint
`ceil((max(n − available, 0) + queue_count) / tokens_per_period) × period`,
lower-bounded by one period (the shortfall is clamped at zero before the
queued tokens are added); a failed `n == 0` request computes the hint as for a
single permit.  In particular, with `token_limit = 2`, `tokens_per_period = 1`
and `period = 20s`, acquiring 2 tokens and then requesting 2 through the
waiting form yields a failed lease with `RetryAfter = 40s`. -/
theorem tokenBucket_failed_acquisition_retry_hint
    (lt : TokenBucket.Limiter) (n : Nat) (hd : ¬lt.state.disposed)
    (hcap : n ≤ lt.config.tokenLimit) (hn : 0 < n)
    (himm : TokenBucket.tryAcquireImmediate lt n = (none, lt)) :
    (TokenBucket.attemptAcquire lt n).1
      = .ok (RateLimitLease.failed (some (lt.config.replenishmentPeriod *
          (max ((max ((n : ℚ) - lt.state.availableTokens) 0
              + (lt.state.queueCount : ℚ)) / (lt.config.tokensPerPeriod : ℚ)).ceil.toNat 1 : Nat)))) ∧
    (¬lt.state.availableTokens > 0 →
      (TokenBucket.attemptAcquire lt 0).1
        = .ok (RateLimitLease.failed (some (lt.config.replenishmentPeriod *
            (max ((max ((1 : ℚ) - lt.state.availableTokens) 0
                + (lt.state.queueCount : ℚ)) / (lt.config.tokensPerPeriod : ℚ)).ceil.toNat 1 : Nat))))) ∧
    (TokenBucket.acquireAsyncEnqueue
        ((TokenBucket.attemptAcquire
            (TokenBucket.Limiter.new ⟨2, 1, 20, 0, .oldestFirst, false⟩ 0) 2).2)
        2).1
      = .lease (RateLimitLease.failed (some 40)) := by
  have hn0 : ¬n = 0 := Nat.pos_iff_ne_zero.mp hn
  have hnc : ¬n > lt.config.tokenLimit := Nat.not_lt.mpr hcap
  refine ⟨?_, ?_, ?_⟩
  · simp [TokenBucket.attemptAcquire, TokenBucket.calculateRetryAfter,
      hd, hn0, hnc, himm]
  · intro ha
    simp [TokenBucket.attemptAcquire, TokenBucket.calculateRetryAfter, hd, ha]
  · norm_num [TokenBucket.attemptAcquire, TokenBucket.tryAcquireImmediate,
      TokenBucket.acquireAsyncEnqueue, TokenBucket.calculateRetryAfter,
      TokenBucket.createLease, TokenBucket.Limiter.new,
      RateLimitLease.failed, RateLimitLease.success, Rat.ceil, Int.toNat]

/-- C7 (witness): the amended theorem applied to a depleted token bucket
(`token_limit = 2`, `tokens_per_period = 1`, `period = 20`): a failed request
for 2 tokens carries `RetryAfter = 40`. -/
theorem tokenBucket_failed_acquisition_retry_hint_witness :
    (TokenBucket.attemptAcquire
        { config := ⟨2, 1, 20, 0, .oldestFirst, false⟩
          state := { availableTokens := 0, queue := [], queueCount := 0
                     lastReplenishment := 0, idleSince := none, disposed := false }
          successfulLeases := 1, failedLeases := 0 } 2).1
      = .ok (RateLimitLease.failed (some ((20 : ℚ) *
          (max ((max ((2 : ℚ) - 0) 0 + (0 : ℚ)) / (1 : ℚ)).ceil.toNat 1 : Nat)))) :=
  (tokenBucket_failed_acquisition_retry_hint
    { config := ⟨2, 1, 20, 0, .oldestFirst, false⟩
      state := { availableTokens := 0, queue := [], queueCount := 0
                 lastReplenishment := 0, idleSince := none, disposed := false }
      successfulLeases := 1, failedLeases := 0 }
    2 (by decide) (by decide) (by decide) (by decide)).1

namespace Chained

/-- Specification-side helper: run `attempt_acquire` over a list of limiters in
order, succeeding only when every one grants; returns the updated limiters and
the granted leases. -/
def acquireSeq (now : ℚ) (pc : Nat) :
    List AnyLimiter → Option (List AnyLimiter × List RateLimitLease)
  | [] => some ([], [])
  | lim :: rest =>
    match attemptAcquireAny now pc lim with
    | (.ok lease, lim2) =>
      if lease.isAcquired then
        match acquireSeq now pc rest with
        | some (rest2, leases) => some (lim2 :: rest2, lease :: leases)
        | none => none
      else none
    | (.error _, _) => none

/-- Tag a list of leases with consecutive limiter indices starting at `base`. -/
def indexLeases (base : Nat) : List RateLimitLease → List InnerLease
  | [] => []
  | lease :: rest => { idx := base, lease := lease } :: indexLeases (base + 1) rest

theorem indexLeases_idx (ls : List RateLimitLease) :
    ∀ base, (indexLeases base ls).map InnerLease.idx = List.range' base ls.length := by
  induction ls with
  | nil => intro base; simp [indexLeases]
  | cons lease rest ih =>
    intro base
    simp [indexLeases, List.range'_succ, ih (base + 1)]

theorem acquireSeq_lengths (now : ℚ) (pc : Nat) :
    ∀ (pre pre2 : List AnyLimiter) (leases : List RateLimitLease),
      acquireSeq now pc pre = some (pre2, leases) →
      pre2.length = pre.length ∧ leases.length = pre.length := by
  intro pre
  induction pre with
  | nil =>
    intro pre2 leases h
    simp [acquireSeq] at h
    obtain ⟨h1, h2⟩ := h
    subst h1; subst h2
    simp
  | cons lim rest ih =>
    intro pre2 leases h
    simp only [acquireSeq] at h
    rcases ha : attemptAcquireAny now pc lim with ⟨res, lim2⟩
    rw [ha] at h
    match res with
    | .error e => simp at h
    | .ok lease =>
      simp only at h
      by_cases hacq : lease.isAcquired
      · rw [if_pos hacq] at h
        rcases hrest : acquireSeq now pc rest with _ | ⟨rest2, ls⟩
        · rw [hrest] at h; simp at h
        · rw [hrest] at h
          simp only [Option.some.injEq, Prod.mk.injEq] at h
          obtain ⟨h1, h2⟩ := h
          obtain ⟨hl1, hl2⟩ := ih rest2 ls hrest
          simp [← h1, ← h2, hl1, hl2]
      · rw [if_neg hacq] at h; simp at h

/-- `chainedGo` runs through a prefix on which every limiter grants, moving it
into the accumulator with consecutively indexed leases. -/
theorem chainedGo_prefix (now : ℚ) (pc : Nat) :
    ∀ (pre pre2 : List AnyLimiter) (leases : List RateLimitLease)
      (rest done : List AnyLimiter) (acquired : List InnerLease),
      acquireSeq now pc pre = some (pre2, leases) →
      chainedGo now pc done (pre ++ rest) acquired
        = chainedGo now pc (done ++ pre2) rest
            (acquired ++ indexLeases done.length leases) := by
  intro pre
  induction pre with
  | nil =>
    intro pre2 leases rest done acquired h
    simp [acquireSeq] at h
    obtain ⟨h1, h2⟩ := h
    subst h1; subst h2
    simp [indexLeases]
  | cons lim pre2 ih =>
    intro pre3 leases rest done acquired h
    simp only [acquireSeq] at h
    rcases ha : attemptAcquireAny now pc lim with ⟨res, lim2⟩
    rw [ha] at h
    match res with
    | .error e => simp at h
    | .ok lease =>
      simp only at h
      by_cases hacq : lease.isAcquired
      · rw [if_pos hacq] at h
        rcases hrest : acquireSeq now pc pre2 with _ | ⟨rest2, ls⟩
        · rw [hrest] at h; simp at h
        · rw [hrest] at h
          simp only [Option.some.injEq, Prod.mk.injEq] at h
          obtain ⟨h1, h2⟩ := h
          subst h1; subst h2
          have step :
              chainedGo now pc done ((lim :: pre2) ++ rest) acquired
                = chainedGo now pc (done ++ [lim2]) (pre2 ++ rest)
                    (acquired ++ [{ idx := done.length, lease := lease }]) := by
            simp [chainedGo, ha, hacq]
          rw [step]
          refine (ih rest2 ls rest (done ++ [lim2])
            (acquired ++ [{ idx := done.length, lease := lease }]) hrest).trans ?_
          simp [indexLeases, List.append_assoc]
      · rw [if_neg hacq] at h; simp at h

end Chained

/-- C8 (counterexample): the claim says releasing the previously acquired
inner leases restores the inner limiters' states.  Consumable limiters are not
restored: chaining a token bucket (5 tokens) before a depleted concurrency
limiter, `try_acquire(1)` fails at index 1, the token-bucket lease is dropped
(it has no release hook), and the bucket is left at 4 tokens, not 5. -/
theorem chained_consumed_tokens_not_restored :
    (Chained.chainedAttemptAcquire 0
        [.tb (TokenBucket.Limiter.new ⟨5, 1, 20, 0, .oldestFirst, false⟩ 0),
         .conc { config := ⟨1, 0, .oldestFirst⟩
                 state := { availablePermits := 0, queue := [], queueCount := 0
                            idleSince := none, disposed := false }
                 successfulLeases := 1, failedLeases := 0 }] 1).1
      = .ok (.failedLease { isAcquired := false, failedLimiterIndex := some 1 }) ∧
    (Chained.chainedAttemptAcquire 0
        [.tb (TokenBucket.Limiter.new ⟨5, 1, 20, 0, .oldestFirst, false⟩ 0),
         .conc { config := ⟨1, 0, .oldestFirst⟩
                 state := { availablePermits := 0, queue := [], queueCount := 0
                            idleSince := none, disposed := false }
                 successfulLeases := 1, failedLeases := 0 }] 1).2.head?
      = some (.tb { config := ⟨5, 1, 20, 0, .oldestFirst, false⟩
                    state := { availableTokens := 4, queue := [], queueCount := 0
                               lastReplenishment := 0, idleSince := none
                               disposed := false }
                    successfulLeases := 1, failedLeases := 0 }) ∧
    (4 : ℚ) ≠ 5 := by
  refine ⟨?_, ?_, ?_⟩ <;>
    norm_num [Chained.chainedAttemptAcquire, Chained.chainedGo,
      Chained.attemptAcquireAny, Chained.releaseAll, Chained.applyRelease,
      updateAt, TokenBucket.attemptAcquire, TokenBucket.tryAcquireImmediate,
      TokenBucket.createLease, TokenBucket.Limiter.new,
      Concurrency.attemptAcquire, Concurrency.tryAcquireImmediate,
      Concurrency.createLease, RateLimitLease.success, RateLimitLease.failed]

/-- C8 (amended): the chained composer tries each inner limiter in declared
order; at the first inner failed lease or error, all previously acquired inner
leases are dropped (firing their release hooks — which restores a concurrency
limiter's permits but leaves consumable limiters' permits consumed) and the
first failure is surfaced: a failed inner lease is returned annotated with
`FailedLimiterIndex` equal to the zero-based failing index, and an error is
propagated unchanged. -/
theorem chained_first_failure_surfaced
    (pre post : List Chained.AnyLimiter) (cur : Chained.AnyLimiter)
    (pre2 : List Chained.AnyLimiter) (leases : List RateLimitLease)
    (n : Nat) (now : ℚ)
    (hpre : Chained.acquireSeq now n pre = some (pre2, leases)) :
    (∀ lease cur2, Chained.attemptAcquireAny now n cur = (.ok lease, cur2) →
      lease.isAcquired = false →
      Chained.chainedAttemptAcquire now (pre ++ cur :: post) n
        = (.ok (.failedLease { lease with failedLimiterIndex := some pre.length }),
            Chained.releaseAll now (Chained.indexLeases 0 leases) pre2
              ++ cur2 :: post)) ∧
    (∀ e cur2, Chained.attemptAcquireAny now n cur = (.error e, cur2) →
      Chained.chainedAttemptAcquire now (pre ++ cur :: post) n
        = (.error e,
            Chained.releaseAll now (Chained.indexLeases 0 leases) pre2
              ++ cur2 :: post)) := by
  obtain ⟨hlen, _⟩ := Chained.acquireSeq_lengths now n pre pre2 leases hpre
  have h0 := Chained.chainedGo_prefix now n pre pre2 leases (cur :: post) [] [] hpre
  simp only [List.nil_append, List.length_nil] at h0
  constructor
  · intro lease cur2 ha hacq
    rw [Chained.chainedAttemptAcquire, h0]
    simp [Chained.chainedGo, ha, hacq, hlen]
  · intro e cur2 ha
    rw [Chained.chainedAttemptAcquire, h0]
    simp [Chained.chainedGo, ha, hlen]

/-- C8 (witness): the spec's chained scenario — limiter A (`permit_limit = 1`,
depleted) before limiter B (`permit_limit = 5`, untouched): `try_acquire(1)`
yields a failed lease with `FailedLimiterIndex == 0` and B stays at 5
available permits. -/
theorem chained_first_failure_surfaced_witness :
    Chained.chainedAttemptAcquire 0
        [.conc { config := ⟨1, 0, .oldestFirst⟩
                 state := { availablePermits := 0, queue := [], queueCount := 0
                            idleSince := none, disposed := false }
                 successfulLeases := 1, failedLeases := 0 },
         .conc (Concurrency.Limiter.new ⟨5, 0, .oldestFirst⟩ 0)] 1
      = (.ok (.failedLease { isAcquired := false, failedLimiterIndex := some 0 }),
          [.conc { config := ⟨1, 0, .oldestFirst⟩
                   state := { availablePermits := 0, queue := [], queueCount := 0
                              idleSince := none, disposed := false }
                   successfulLeases := 1, failedLeases := 1 },
           .conc (Concurrency.Limiter.new ⟨5, 0, .oldestFirst⟩ 0)]) := by
  exact (chained_first_failure_surfaced []
    [.conc (Concurrency.Limiter.new ⟨5, 0, .oldestFirst⟩ 0)]
    (.conc { config := ⟨1, 0, .oldestFirst⟩
             state := { availablePermits := 0, queue := [], queueCount := 0
                        idleSince := none, disposed := false }
             successfulLeases := 1, failedLeases := 0 })
    [] [] 1 0 (by rfl)).1
    (RateLimitLease.failed none)
    (.conc { config := ⟨1, 0, .oldestFirst⟩
             state := { availablePermits := 0, queue := [], queueCount := 0
                        idleSince := none, disposed := false }
             successfulLeases := 1, failedLeases := 1 })
    (by rfl) (by rfl)

/-- C9 (counterexample): the claim says dropping the combined lease releases
the inner leases in reverse acquisition order (last-acquired first).  Dropping
the captured `Vec` releases them front-to-back: for a two-limiter chain where
both acquire, the release events are `[0, 1]` — acquisition order — and not
the claimed `[1, 0]`. -/
theorem chained_drop_order_not_reverse :
    (Chained.chainedAttemptAcquire 0
        [.conc (Concurrency.Limiter.new ⟨2, 0, .oldestFirst⟩ 0),
         .conc (Concurrency.Limiter.new ⟨3, 0, .oldestFirst⟩ 0)] 1).1
      = .ok (.combined
          [{ idx := 0, lease := RateLimitLease.successWithConcCleanup 1 true },
           { idx := 1, lease := RateLimitLease.successWithConcCleanup 1 true }]) ∧
    Chained.combinedReleaseEvents
        [{ idx := 0, lease := RateLimitLease.successWithConcCleanup 1 true },
         { idx := 1, lease := RateLimitLease.successWithConcCleanup 1 true }]
      = [0, 1] ∧
    ([0, 1] : List Nat) ≠ [1, 0] := by
  refine ⟨rfl, rfl, by decide⟩

/-- C9 (amended): when every inner limiter grants, the chained composer
returns an acquired outer lease wrapping the inner leases in acquisition
order, and dropping the outer lease fires the inner release hooks in that same
acquisition order (the captured `Vec` drops front-to-back), not in reverse. -/
theorem chained_combined_lease_release_order
    (ls ls2 : List Chained.AnyLimiter) (leases : List RateLimitLease)
    (n : Nat) (now : ℚ)
    (hall : Chained.acquireSeq now n ls = some (ls2, leases)) :
    Chained.chainedAttemptAcquire now ls n
      = (.ok (.combined (Chained.indexLeases 0 leases)), ls2) ∧
    Chained.combinedReleaseEvents (Chained.indexLeases 0 leases)
      = List.range ls.length := by
  obtain ⟨_, hlen⟩ := Chained.acquireSeq_lengths now n ls ls2 leases hall
  have h0 := Chained.chainedGo_prefix now n ls ls2 leases [] [] [] hall
  constructor
  · rw [Chained.chainedAttemptAcquire, ← List.append_nil ls, h0]
    simp [Chained.chainedGo]
  · rw [Chained.combinedReleaseEvents, Chained.indexLeases_idx, hlen,
      List.range_eq_range']

/-- C9 (witness): the amended theorem applied to a two-limiter chain where
both concurrency limiters grant: the release events are `[0, 1]`. -/
theorem chained_combined_lease_release_order_witness :
    Chained.combinedReleaseEvents (Chained.indexLeases 0
        [RateLimitLease.successWithConcCleanup 1 true,
         RateLimitLease.successWithConcCleanup 1 true])
      = List.range 2 :=
  (chained_combined_lease_release_order
    [.conc (Concurrency.Limiter.new ⟨2, 0, .oldestFirst⟩ 0),
     .conc (Concurrency.Limiter.new ⟨3, 0, .oldestFirst⟩ 0)]
    [.conc { config := ⟨2, 0, .oldestFirst⟩
             state := { availablePermits := 1, queue := [], queueCount := 0
                        idleSince := none, disposed := false }
             successfulLeases := 1, failedLeases := 0 },
     .conc { config := ⟨3, 0, .oldestFirst⟩
             state := { availablePermits := 2, queue := [], queueCount := 0
                        idleSince := none, disposed := false }
             successfulLeases := 1, failedLeases := 0 }]
    [RateLimitLease.successWithConcCleanup 1 true,
     RateLimitLease.successWithConcCleanup 1 true]
    1 0 (by rfl)).2

namespace Partitioned

theorem storeLimiter_of_not_found {κ : Type} [DecidableEq κ] (k : κ)
    (v f : Chained.AnyLimiter) :
    ∀ m : List (κ × Chained.AnyLimiter), findLimiter k m = none →
      storeLimiter k v (m ++ [(k, f)]) = m ++ [(k, v)] := by
  intro m
  induction m with
  | nil => intro _; simp [storeLimiter]
  | cons kv rest ih =>
    intro h
    simp only [findLimiter] at h
    by_cases hk : k = kv.1
    · rw [if_pos hk] at h; simp at h
    · rw [if_neg hk] at h
      simp [storeLimiter, hk, ih h]

theorem findLimiter_append_self {κ : Type} [DecidableEq κ] (k : κ)
    (v : Chained.AnyLimiter) :
    ∀ m : List (κ × Chained.AnyLimiter), findLimiter k m = none →
      findLimiter k (m ++ [(k, v)]) = some v := by
  intro m
  induction m with
  | nil => intro _; simp [findLimiter]
  | cons kv rest ih =>
    intro h
    simp only [findLimiter] at h
    by_cases hk : k = kv.1
    · rw [if_pos hk] at h; simp at h
    · rw [if_neg hk] at h
      simp [findLimiter, hk, ih h]

theorem storeLimiter_length {κ : Type} [DecidableEq κ] (k : κ)
    (v : Chained.AnyLimiter) :
    ∀ m : List (κ × Chained.AnyLimiter),
      (storeLimiter k v m).length = m.length := by
  intro m
  induction m with
  | nil => simp [storeLimiter]
  | cons kv rest ih =>
    by_cases hk : k = kv.1 <;> simp [storeLimiter, hk, ih]

end Partitioned

/-- C10 (confirmed): the partitioner runs on every operation, but an existing
limiter under the produced key is kept and the freshly produced one discarded;
two operations whose resources map to the same key therefore hit the same
limiter instance (permit consumption persists across calls), and
`partition_count()` grows only on a key's first occurrence. -/
theorem partitioned_same_key_same_limiter
    {ρ κ : Type} [DecidableEq κ] (p : Partitioned.PartitionedRateLimiter ρ κ)
    (r1 r2 : ρ) (k : κ) (f1 f2 : Chained.AnyLimiter) (n1 n2 : Nat)
    (now1 now2 : ℚ)
    (h1 : p.partitioner r1 = (k, f1)) (h2 : p.partitioner r2 = (k, f2))
    (hfresh : Partitioned.findLimiter k p.limiters = none) :
    (∀ l, Partitioned.findLimiter k p.limiters = some l →
      Partitioned.getLimiter p r2 = (l, p)) ∧
    (Partitioned.attemptAcquire p r1 n1 now1).1
      = (Chained.attemptAcquireAny now1 n1 f1).1 ∧
    Partitioned.findLimiter k ((Partitioned.attemptAcquire p r1 n1 now1).2).limiters
      = some (Chained.attemptAcquireAny now1 n1 f1).2 ∧
    Partitioned.partitionCount (Partitioned.attemptAcquire p r1 n1 now1).2
      = Partitioned.partitionCount p + 1 ∧
    (Partitioned.attemptAcquire (Partitioned.attemptAcquire p r1 n1 now1).2 r2 n2 now2).1
      = (Chained.attemptAcquireAny now2 n2 (Chained.attemptAcquireAny now1 n1 f1).2).1 ∧
    Partitioned.partitionCount
        (Partitioned.attemptAcquire (Partitioned.attemptAcquire p r1 n1 now1).2 r2 n2 now2).2
      = Partitioned.partitionCount p + 1 := by
  have hstore := Partitioned.storeLimiter_of_not_found k
    (Chained.attemptAcquireAny now1 n1 f1).2 f1 p.limiters hfresh
  have hp1eq : (Partitioned.attemptAcquire p r1 n1 now1).2
      = { limiters := p.limiters ++ [(k, (Chained.attemptAcquireAny now1 n1 f1).2)]
          partitioner := p.partitioner } := by
    simp [Partitioned.attemptAcquire, Partitioned.getLimiter, h1, hfresh, hstore]
  have hfind1 : Partitioned.findLimiter k
      (p.limiters ++ [(k, (Chained.attemptAcquireAny now1 n1 f1).2)])
      = some (Chained.attemptAcquireAny now1 n1 f1).2 :=
    Partitioned.findLimiter_append_self k _ p.limiters hfresh
  refine ⟨?_, ?_, ?_, ?_, ?_, ?_⟩
  · intro l hl
    simp [Partitioned.getLimiter, h2, hl]
  · simp [Partitioned.attemptAcquire, Partitioned.getLimiter, h1, hfresh]
  · rw [hp1eq]
    exact hfind1
  · rw [hp1eq]
    simp [Partitioned.partitionCount]
  · rw [hp1eq]
    simp [Partitioned.attemptAcquire, Partitioned.getLimiter, h2, hfind1]
  · rw [hp1eq]
    simp [Partitioned.partitionCount, Partitioned.attemptAcquire,
      Partitioned.getLimiter, h2, hfind1, Partitioned.storeLimiter_length]

/-- C10 (witness): a partitioner mapping resources to `resource % 2` with
per-key concurrency limiters of capacity 1: after resource 0 consumes the
permit of key 0, resource 2 (same key) is served by the same stored limiter
and its acquisition fails; the partition count stays 1. -/
theorem partitioned_same_key_same_limiter_witness :
    (Partitioned.attemptAcquire
        (Partitioned.attemptAcquire
          (Partitioned.PartitionedRateLimiter.new (fun r : Nat =>
            (r % 2, .conc (Concurrency.Limiter.new ⟨1, 0, .oldestFirst⟩ 0))))
          0 1 0).2
        2 1 0).1
      = (Chained.attemptAcquireAny 0 1
          (Chained.attemptAcquireAny 0 1
            (.conc (Concurrency.Limiter.new ⟨1, 0, .oldestFirst⟩ 0))).2).1 ∧
    Partitioned.partitionCount
        (Partitioned.attemptAcquire
          (Partitioned.attemptAcquire
            (Partitioned.PartitionedRateLimiter.new (fun r : Nat =>
              (r % 2, .conc (Concurrency.Limiter.new ⟨1, 0, .oldestFirst⟩ 0))))
            0 1 0).2
          2 1 0).2
      = 1 := by
  have h := partitioned_same_key_same_limiter
    (Partitioned.PartitionedRateLimiter.new (fun r : Nat =>
      (r % 2, .conc (Concurrency.Limiter.new ⟨1, 0, .oldestFirst⟩ 0))))
    0 2 0 (.conc (Concurrency.Limiter.new ⟨1, 0, .oldestFirst⟩ 0))
    (.conc (Concurrency.Limiter.new ⟨1, 0, .oldestFirst⟩ 0))
    1 1 0 0 (by rfl) (by rfl) (by rfl)
  exact ⟨h.2.2.2.2.1, h.2.2.2.2.2⟩
